import Mathlib

/-!
# Verification of `buildscripts/idl/idl_check_compatibility.py` (mongodb-r5.0.3)

A shallow embedding of the IDL backward-compatibility checker.  The Python
script walks two generations ("old" and "new") of IDL command definitions and
records compatibility errors into an append-only context.  Here every check
function is translated into a pure Lean function that returns the list of
errors it records, together with the control outcome:

* `.ok es`      — the function returned normally, recording `es`;
* `.fatal es`   — the function recorded `es`, dumped them and called
                  `sys.exit(1)` (the unresolved-type short circuit);
* `.crash es`   — the Python code raised an unhandled exception (an attribute
                  access on `None` or on an object lacking the attribute)
                  after recording `es`;
* `.fuelOut es` — recursion fuel ran out (the embedding's artefact; the
                  recursive functions are fuel-indexed).

Field types arrive pre-resolved: the Python `get_field_type` resolves a
field's type reference against the parsed IDL file and yields
`Optional[Union[syntax.Enum, syntax.Struct, syntax.Type]]`; the embedding
stores that resolution result directly in `FieldDef.resolvedType`, with
`none` for a failed resolution.  `syntax.VariantType` and `syntax.ArrayType`
are subclasses of `syntax.Type` in the source, so `isTypeInst` is true for
scalars, variants and arrays.
-/

namespace IdlCompat

mutual

/-- The resolved type of a field, mirroring
`Union[syntax.Enum, syntax.Struct, syntax.Type]` where `syntax.Type` splits
into plain scalar types, `syntax.VariantType` and `syntax.ArrayType`. -/
inductive TypeKind where
  | scalar (tname : String) (bson : List String)
      (cppType ser deser : Option String)
  | variantT (tname : String) (bson : List String)
      (cppType ser deser : Option String)
      (variantTypes : List TypeKind) (variantStructType : Option StructDef)
  | arrayT (tname : String) (elementType : Option TypeKind)
  | enumT (tname : String) (values : List String)
  | structT (sdef : StructDef)

/-- `syntax.Struct`: a name and an ordered field list. -/
inductive StructDef where
  | mk (sname : String) (fields : List FieldDef)

/-- `syntax.Field` with its type reference already resolved
(`resolvedType = none` models a failed `get_field_type`).
`hasDefault` mirrors `field.default is not None`. -/
inductive FieldDef where
  | mk (fname : String) (resolvedType : Option TypeKind)
      (optionalF unstableF hasDefault : Bool) (validator : Option String)

end

end IdlCompat

namespace IdlCompat

def StructDef.sname : StructDef → String
  | .mk n _ => n

def StructDef.fields : StructDef → List FieldDef
  | .mk _ fs => fs

def FieldDef.fname : FieldDef → String
  | .mk n _ _ _ _ _ => n

def FieldDef.resolvedType : FieldDef → Option TypeKind
  | .mk _ t _ _ _ _ => t

def FieldDef.optionalF : FieldDef → Bool
  | .mk _ _ o _ _ _ => o

def FieldDef.unstableF : FieldDef → Bool
  | .mk _ _ _ u _ _ => u

def FieldDef.hasDefault : FieldDef → Bool
  | .mk _ _ _ _ d _ => d

def FieldDef.validator : FieldDef → Option String
  | .mk _ _ _ _ _ v => v

/-- `x.name` on a resolved type (every `syntax.Enum/Struct/Type` has one). -/
def TypeKind.tname : TypeKind → String
  | .scalar n _ _ _ _ => n
  | .variantT n _ _ _ _ _ _ => n
  | .arrayT n _ => n
  | .enumT n _ => n
  | .structT sd => sd.sname

/-- `isinstance(t, syntax.Type)`: true for scalars, variants and arrays
(`VariantType` and `ArrayType` subclass `Type`). -/
def isTypeInst : TypeKind → Bool
  | .scalar .. => true
  | .variantT .. => true
  | .arrayT .. => true
  | .enumT .. => false
  | .structT _ => false

/-- `t.bson_serialization_type` where reading it on an array (whose slot the
resolver leaves as `None`) yields no list — the Python code then throws on
`"any" in None`, which callers surface as a crash. -/
def scalarBson : TypeKind → Option (List String)
  | .scalar _ bs _ _ _ => some bs
  | .variantT _ bs _ _ _ _ _ => some bs
  | _ => none

def cppOf : TypeKind → Option String
  | .scalar _ _ c _ _ => c
  | .variantT _ _ c _ _ _ _ => c
  | _ => none

def serOf : TypeKind → Option String
  | .scalar _ _ _ s _ => s
  | .variantT _ _ _ s _ _ _ => s
  | _ => none

def deserOf : TypeKind → Option String
  | .scalar _ _ _ _ d => d
  | .variantT _ _ _ _ d _ _ => d
  | _ => none

def isArrayT : TypeKind → Bool
  | .arrayT .. => true
  | _ => false

/-- `isinstance(t, syntax.ArrayType)` on an optional resolved type. -/
def isArrayO : Option TypeKind → Bool
  | some t => isArrayT t
  | none => false

/-- `t.element_type`: defined only on arrays; `none` models the
`AttributeError` raised when the attribute is read on anything else
(including an unresolved `None`). -/
def elementTypeOf : Option TypeKind → Option (Option TypeKind)
  | some (.arrayT _ e) => some e
  | _ => none

/-- `t.name` on an optional type; `none` models `AttributeError` on `None`. -/
def nameOfO : Option TypeKind → Option String
  | some t => some t.tname
  | none => none

/-- Every distinct `ctxt.add_*_error` method that the checked functions call. -/
inductive ErrKind where
  | newReplyFieldTypeEnumOrStruct
  | oldReplyFieldBsonAny
  | newReplyFieldBsonAny
  | replyFieldBsonAnyNotAllowed
  | replyFieldCppTypeNotEqual
  | replyFieldSerializerNotEqual
  | replyFieldDeserializerNotEqual
  | newReplyFieldVariantTypeNotSubset
  | newReplyFieldVariantType
  | replyFieldNotSubset
  | newReplyFieldTypeNotEnum
  | newReplyFieldTypeNotStruct
  | replyFieldTypeInvalid
  | newReplyFieldUnstable
  | newReplyFieldOptional
  | replyFieldValidatorsNotEqual
  | replyFieldContainsValidator
  | newReplyFieldMissing
  | typeNotArray
  | newCommandOrParamTypeEnumOrStruct
  | oldCommandOrParamBsonAny
  | newCommandOrParamBsonAny
  | commandOrParamBsonAnyNotAllowed
  | commandOrParamCppTypeNotEqual
  | commandOrParamSerializerNotEqual
  | commandOrParamDeserializerNotEqual
  | newCommandOrParamTypeNotVariant
  | newCommandOrParamVariantTypeNotSuperset
  | commandOrParamTypeNotSuperset
  | newCommandOrParamTypeNotEnum
  | newCommandOrParamTypeNotStruct
  | commandOrParamTypeInvalid
  | newParamOrTypeFieldUnstable
  | newParamOrTypeFieldStableRequiredNoDefault
  | newParamOrTypeFieldRequired
  | commandOrParamValidatorsNotEqual
  | commandOrParamContainsValidator
  | newParamOrTypeFieldMissing
  | newParamOrTypeFieldAddedRequired
  | commandStrictTrue
  | newNamespaceIncompatible
  | commandRemoved
  | commandInvalidApiVersion
  | duplicateCommandName
  | accessCheckTypeNotEqual
  | checkNotEqual
  | resourcePatternNotEqual
  | newActionTypesNotSubset
  | newAdditionalComplexAccessCheck
  | newComplexChecksNotSubset
  | newComplexPrivilegesNotSubset
  | removedAccessCheckField
  | addedAccessCheckField
deriving DecidableEq, Repr

/-- A recorded `CompatibilityError`: its kind, the command name and the
field/parameter/symbol name the `add_*` call received (when any). -/
structure Err where
  kind : ErrKind
  cmd : String
  sub : Option String
deriving DecidableEq, Repr

/-- Control outcome of one embedded check function, with the errors it
recorded, in recording order. -/
inductive CheckResult where
  | ok (es : List Err)
  | fatal (es : List Err)
  | crash (es : List Err)
  | fuelOut (es : List Err)
deriving DecidableEq, Repr

/-- All errors carried by an outcome (the ones the run recorded before
returning, exiting, crashing or running out of fuel). -/
def CheckResult.errors : CheckResult → List Err
  | .ok es => es
  | .fatal es => es
  | .crash es => es
  | .fuelOut es => es

/-- Prefix previously recorded errors onto an outcome. -/
def CheckResult.withPre (es : List Err) : CheckResult → CheckResult
  | .ok d => .ok (es ++ d)
  | .fatal d => .fatal (es ++ d)
  | .crash d => .crash (es ++ d)
  | .fuelOut d => .fuelOut (es ++ d)

/-- Sequencing: run `k` only if `r` returned normally, accumulating errors. -/
def CheckResult.andThen (r : CheckResult) (k : CheckResult) : CheckResult :=
  match r with
  | .ok es => k.withPre es
  | r => r

/-- `set(sub).issubset(sup)`. -/
def subsetB {α : Type} [BEq α] (sub sup : List α) : Bool :=
  sub.all (fun x => sup.contains x)

/-- `ALLOW_ANY_TYPE_LIST` from the source, verbatim. -/
def allowAnyTypeList : List String := [
  "commandAllowedAnyTypes",
  "commandAllowedAnyTypes-param-anyTypeParam",
  "commandAllowedAnyTypes-reply-anyTypeField",
  "oldTypeBsonAnyAllowList",
  "newTypeBsonAnyAllowList",
  "oldReplyFieldTypeBsonAnyAllowList-reply-oldBsonSerializationTypeAnyReplyField",
  "newReplyFieldTypeBsonAnyAllowList-reply-newBsonSerializationTypeAnyReplyField",
  "oldParamTypeBsonAnyAllowList-param-bsonTypeAnyParam",
  "newParamTypeBsonAnyAllowList-param-bsonTypeAnyParam",
  "commandAllowedAnyTypesWithVariant-reply-anyTypeField",
  "replyFieldTypeBsonAnyWithVariant-reply-bsonSerializationTypeAnyStructField",
  "replyFieldTypeBsonAnyWithVariantWithArray-reply-bsonSerializationTypeAnyStructField",
  "parameterFieldTypeBsonAnyWithVariant-param-bsonSerializationTypeAnyStructField",
  "parameterFieldTypeBsonAnyWithVariantWithArray-param-bsonSerializationTypeAnyStructField",
  "commandTypeBsonAnyWithVariant",
  "commandTypeBsonAnyWithVariantWithArray",
  "replyFieldCppTypeNotEqual-reply-cppTypeNotEqualReplyField",
  "commandCppTypeNotEqual",
  "commandParameterCppTypeNotEqual-param-cppTypeNotEqualParam",
  "replyFieldSerializerNotEqual-reply-serializerNotEqualReplyField",
  "commandSerializerNotEqual",
  "commandParameterSerializerNotEqual-param-serializerNotEqualParam",
  "replyFieldDeserializerNotEqual-reply-deserializerNotEqualReplyField",
  "commandDeserializerNotEqual",
  "commandParameterDeserializerNotEqual-param-deserializerNotEqualParam",
  "newlyAddedReplyFieldTypeBsonAnyAllowed-reply-newlyAddedBsonSerializationTypeAnyReplyField",
  "replyFieldTypeBsonAnyWithVariantUnstable-reply-bsonSerializationTypeWithVariantAnyUnstableReplyField",
  "newlyAddedParamBsonAnyAllowList-param-newlyAddedBsonAnyAllowListParam",
  "newlyAddedTypeFieldBsonAnyAllowList",
  "parameterFieldTypeBsonAnyWithVariantUnstable-param-bsonSerializationTypeAnyStructField",
  "commandTypeBsonAnyWithVariantUnstable",
  "commandParameterCppTypeNotEqualUnstable-param-cppTypeNotEqualParam",
  "replyFieldCppTypeNotEqualUnstable-reply-cppTypeNotEqualReplyUnstableField",
  "commandCppTypeNotEqualUnstable",
  "commandParameterSerializerNotEqualUnstable-param-serializerNotEqualParam",
  "replyFieldSerializerNotEqualUnstable-reply-serializerNotEqualReplyUnstableField",
  "commandSerializerNotEqualUnstable",
  "commandParameterDeserializerNotEqualUnstable-param-deserializerNotEqualParam",
  "replyFieldDeserializerNotEqualUnstable-reply-deserializerNotEqualReplyUnstableField",
  "commandDeserializerNotEqualUnstable",
  "create-param-backwards",
  "saslStart-param-payload",
  "explain-param-use44SortKeys",
  "explain-param-useNewUpsert",
  "saslStart-param-payload",
  "saslStart-reply-payload",
  "saslContinue-param-payload",
  "saslContinue-reply-payload",
  "aggregate-param-pipeline",
  "aggregate-param-explain",
  "aggregate-param-allowDiskUse",
  "aggregate-param-cursor",
  "aggregate-param-hint",
  "aggregate-param-needsMerge",
  "aggregate-param-fromMongos",
  "aggregate-param-$_requestReshardingResumeToken",
  "aggregate-param-isMapReduceCommand",
  "find-param-filter",
  "find-param-projection",
  "find-param-sort",
  "find-param-hint",
  "find-param-collation",
  "find-param-singleBatch",
  "find-param-allowDiskUse",
  "find-param-min",
  "find-param-max",
  "find-param-returnKey",
  "find-param-showRecordId",
  "find-param-$queryOptions",
  "find-param-tailable",
  "find-param-oplogReplay",
  "find-param-noCursorTimeout",
  "find-param-awaitData",
  "find-param-allowPartialResults",
  "find-param-readOnce",
  "find-param-allowSpeculativeMajorityRead",
  "find-param-$_requestResumeToken",
  "find-param-$_resumeAfter",
  "find-param-maxTimeMS",
  "update-param-u",
  "update-param-hint",
  "update-param-upsertSupplied",
  "update-reply-_id",
  "delete-param-limit",
  "delete-param-hint",
  "findAndModify-param-hint",
  "findAndModify-param-update",
  "findAndModify-reply-upserted",
  "explain-param-collation",
  "explain-param-use44SortKeys",
  "explain-param-useNewUpsert"]

/-- `FieldCompatibility`: a resolved field type plus the old field's
unstable flag (file/path bookkeeping omitted — it only feeds messages). -/
structure FieldComp where
  ftype : Option TypeKind
  unstableC : Bool

/-- `FieldCompatibilityPair`. -/
structure FieldPair where
  oldf : FieldComp
  newf : FieldComp
  cmdName : String
  fieldName : String

/-- `ArrayTypeCheckResult` (INVALID / TRUE / FALSE). -/
inductive ArrayTypeCheckResult where
  | invalidR
  | trueR
  | falseR
deriving DecidableEq, Repr

/-- Outcome of `check_array_type`: the enum result plus any recorded error,
or a crash (the error message reads `new_type.name` and `old_type.name`,
which raises when the non-array side failed to resolve). -/
inductive ArrayCheckOut where
  | outRes (r : ArrayTypeCheckResult) (es : List Err)
  | outCrash
deriving DecidableEq, Repr

/-- `check_array_type`.  Returns FALSE when neither side is an array, TRUE
when both are (or when exactly one is but the old field is unstable), and
INVALID — with a `type_not_array` error — when exactly one side is an array
and the old field is stable. -/
def checkArrayType (_symbolArg : String) (oldT newT : Option TypeKind)
    (cmd symName : String) (oldU : Bool) : ArrayCheckOut :=
  let oldA := isArrayO oldT
  let newA := isArrayO newT
  if !oldA && !newA then .outRes .falseR []
  else if (!oldA || !newA) && !oldU then
    match nameOfO newT, nameOfO oldT with
    | some _, some _ => .outRes .invalidR [⟨.typeNotArray, cmd, some symName⟩]
    | _, _ => .outCrash
  else .outRes .trueR []

/-- The `any`-allowlist check run on one newly added reply field. -/
def newlyAddedReplyFieldAnyCheck (cmd : String) (nf : FieldDef) : CheckResult :=
  match nf.resolvedType with
  | some t =>
    if isTypeInst t then
      match scalarBson t with
      | some bs =>
        .ok (if bs.contains "any" &&
               !allowAnyTypeList.contains (cmd ++ "-reply-" ++ nf.fname)
             then [⟨.replyFieldBsonAnyNotAllowed, cmd, some nf.fname⟩]
             else [])
      | none => .crash []
    else .ok []
  | none => .ok []

/-- The second loop of `check_reply_fields`: newly added reply fields are
only checked for a disallowed `any` bson serialization type. -/
def newlyAddedReplyChecks (cmd : String) (oldFields : List FieldDef) :
    List FieldDef → CheckResult
  | [] => .ok []
  | nf :: rest =>
    CheckResult.andThen
      (if oldFields.all (fun ofd => ofd.fname != nf.fname) then
        newlyAddedReplyFieldAnyCheck cmd nf
      else .ok [])
      (newlyAddedReplyChecks cmd oldFields rest)

/-- The `any`-allowlist check run on one newly added parameter or
command-type field. -/
def newlyAddedParamFieldAnyCheck (cmd : String) (isParam : Bool)
    (nf : FieldDef) : CheckResult :=
  match nf.resolvedType with
  | some t =>
    if isTypeInst t then
      match scalarBson t with
      | some bs =>
        .ok (if bs.contains "any" &&
               !allowAnyTypeList.contains
                 (if isParam then cmd ++ "-param-" ++ nf.fname else cmd)
             then [⟨.commandOrParamBsonAnyNotAllowed, cmd, some nf.fname⟩]
             else [])
      | none => .crash []
    else .ok []
  | none => .ok []

/-- The second loop of `check_command_params_or_type_struct_fields`: a newly
added field must be optional or unstable, and must not carry a disallowed
`any` bson serialization type. -/
def newlyAddedParamChecks (cmd : String) (oldFields : List FieldDef)
    (isParam : Bool) : List FieldDef → CheckResult
  | [] => .ok []
  | nf :: rest =>
    CheckResult.andThen
      (if oldFields.all (fun ofd => ofd.fname != nf.fname) then
        CheckResult.withPre
          (if !nf.optionalF && !nf.unstableF then
             [⟨.newParamOrTypeFieldAddedRequired, cmd, some nf.fname⟩]
           else [])
          (newlyAddedParamFieldAnyCheck cmd isParam nf)
      else .ok [])
      (newlyAddedParamChecks cmd oldFields isParam rest)

/-- The four namespace kinds (`common.COMMAND_NAMESPACE_*`). -/
inductive NsKind where
  | ignored
  | concatWithDb
  | concatWithDbOrUuid
  | typeNS
deriving DecidableEq, Repr

/-- `syntax.Privilege`. -/
structure Privilege where
  resourcePattern : String
  actionType : List String
deriving DecidableEq, Repr

/-- `syntax.AccessCheck` (one entry of a complex check). -/
structure AccessCheckEntry where
  checkE : Option String
  privilegeE : Option Privilege
deriving DecidableEq, Repr

/-- `syntax.AccessChecks`: the `simple` and `complex` slots the checker
reads (`get_access_check_type` is derived from which slot is set). -/
structure AccessChecksDef where
  simpleA : Option AccessCheckEntry
  complexA : Option (List AccessCheckEntry)
deriving DecidableEq, Repr

/-- Modelled from the spec: `syntax.AccessChecks.get_access_check_type` is
not under src/; §3 makes AccessChecks a None/Simple/Complex tagged union, so
the tag is read off from whichever slot is populated. -/
def accessCheckTypeOf (a : AccessChecksDef) : String :=
  if a.simpleA.isSome then "simple"
  else if a.complexA.isSome then "complex"
  else "none"

/-- Stable insertion into a list kept in decreasing `action_type`-length
order (the comparator of `split_complex_checks`). -/
def insertPrivDesc (p : Privilege) : List Privilege → List Privilege
  | [] => [p]
  | q :: qs =>
    if q.actionType.length ≤ p.actionType.length then p :: q :: qs
    else q :: insertPrivDesc p qs

/-- Python's stable `sorted(privileges, key=len(action_type), reverse=True)`. -/
def sortPrivsDesc : List Privilege → List Privilege
  | [] => []
  | p :: ps => insertPrivDesc p (sortPrivsDesc ps)

/-- `split_complex_checks`. -/
def splitComplexChecks (entries : List AccessCheckEntry) :
    List String × List Privilege :=
  (entries.filterMap (fun e => e.checkE),
   sortPrivsDesc (entries.filterMap (fun e => e.privilegeE)))

/-- The greedy privilege-matching loop of `check_security_access_checks`:
each new privilege is matched against the first remaining old privilege with
an equal resource pattern and a superset of its action types; a matched old
privilege is removed; an unmatched new privilege records an error. -/
def privMatchLoop (cmd : String) : List Privilege → List Privilege → List Err
  | [], _ => []
  | np :: rest, olds =>
    match olds.findIdx? (fun op =>
        np.resourcePattern == op.resourcePattern &&
        subsetB np.actionType op.actionType) with
    | some i => privMatchLoop cmd rest (olds.eraseIdx i)
    | none =>
      ⟨.newComplexPrivilegesNotSubset, cmd, none⟩ :: privMatchLoop cmd rest olds

/-- `check_security_access_checks`. -/
def checkSecurityAccessChecks (oldAC newAC : Option AccessChecksDef)
    (cmdName apiVersion : String) : List Err :=
  match oldAC, newAC with
  | some o, some n =>
    if accessCheckTypeOf o != accessCheckTypeOf n then
      [⟨.accessCheckTypeNotEqual, cmdName, none⟩]
    else
      (match o.simpleA, n.simpleA with
       | some os, some ns =>
         if os.checkE != ns.checkE then [⟨.checkNotEqual, cmdName, none⟩]
         else
           match os.privilegeE, ns.privilegeE with
           | some op, some np =>
             (if op.resourcePattern != np.resourcePattern then
                [⟨.resourcePatternNotEqual, cmdName, none⟩]
              else [])
             ++ (if !subsetB np.actionType op.actionType then
                   [⟨.newActionTypesNotSubset, cmdName, none⟩]
                 else [])
           | _, _ => []
       | _, _ => [])
      ++
      (match o.complexA, n.complexA with
       | some oc, some nc =>
         if nc.length > oc.length then
           [⟨.newAdditionalComplexAccessCheck, cmdName, none⟩]
         else
           let oldSplit := splitComplexChecks oc
           let newSplit := splitComplexChecks nc
           (if !subsetB newSplit.1 oldSplit.1 then
              [⟨.newComplexChecksNotSubset, cmdName, none⟩]
            else [])
           ++ (if newSplit.2.length > oldSplit.2.length then
                 [⟨.newComplexPrivilegesNotSubset, cmdName, none⟩]
               else privMatchLoop cmdName newSplit.2 oldSplit.2)
       | _, _ => [])
  | some _, none => [⟨.removedAccessCheckField, cmdName, none⟩]
  | none, some _ =>
    if apiVersion == "1" then [⟨.addedAccessCheckField, cmdName, none⟩] else []
  | none, none => []

/-- `syntax.Command`, with its type reference (for `namespace: type`), its
parameter fields (a Command is a Struct in the source) and its resolved
reply struct. -/
structure CommandDef where
  name : String
  apiVersion : String
  imported : Bool
  strict : Bool
  namespaceKind : NsKind
  namespaceType : Option TypeKind
  parameters : List FieldDef
  replyType : StructDef
  accessCheck : Option AccessChecksDef

/-- A command viewed as the struct whose fields are its parameters. -/
def cmdStruct (c : CommandDef) : StructDef := .mk c.name c.parameters

mutual

/-- `check_reply_field_type`: array handling, unresolved-type fatal exits,
then dispatch on the old type's kind. -/
def checkReplyFieldType : Nat → FieldPair → CheckResult
  | 0, _ => .fuelOut []
  | fuel+1, pair =>
    match checkArrayType "reply_field" pair.oldf.ftype pair.newf.ftype
        pair.cmdName "type" pair.oldf.unstableC with
    | .outCrash => .crash []
    | .outRes .invalidR es => .ok es
    | .outRes .trueR es =>
      (match elementTypeOf pair.oldf.ftype, elementTypeOf pair.newf.ftype with
       | some oe, some ne =>
         CheckResult.withPre es
           (checkReplyFieldTypeCore fuel oe ne pair.cmdName pair.fieldName
             pair.oldf.unstableC pair.newf.unstableC)
       | _, _ => .crash es)
    | .outRes .falseR es =>
      CheckResult.withPre es
        (checkReplyFieldTypeCore fuel pair.oldf.ftype pair.newf.ftype
          pair.cmdName pair.fieldName pair.oldf.unstableC pair.newf.unstableC)

/-- `check_reply_field_type` after array unwrapping: the two fatal
unresolved-type exits, then the Type/Enum/Struct dispatch. -/
def checkReplyFieldTypeCore :
    Nat → Option TypeKind → Option TypeKind → String → String → Bool → Bool →
    CheckResult
  | 0, _, _, _, _, _, _ => .fuelOut []
  | fuel+1, oldT, newT, cmd, fname, oldU, newU =>
    match oldT with
    | none => .fatal [⟨.replyFieldTypeInvalid, cmd, some fname⟩]
    | some ot =>
      match newT with
      | none => .fatal [⟨.replyFieldTypeInvalid, cmd, some fname⟩]
      | some nt =>
        if isTypeInst ot then
          checkReplyFieldTypeRecursive fuel ot nt cmd fname oldU newU
        else
          match ot with
          | .enumT _ ovals =>
            if oldU then .ok []
            else
              match nt with
              | .enumT _ nvals =>
                .ok (if subsetB nvals ovals then []
                     else [⟨.replyFieldNotSubset, cmd, some fname⟩])
              | _ => .ok [⟨.newReplyFieldTypeNotEnum, cmd, some fname⟩]
          | .structT osd =>
            match nt with
            | .structT nsd => checkReplyFields fuel osd nsd cmd
            | _ =>
              .ok (if oldU then []
                   else [⟨.newReplyFieldTypeNotStruct, cmd, some fname⟩])
          | _ => .ok []

/-- `check_reply_field_type_recursive`: the old type is a `syntax.Type`. -/
def checkReplyFieldTypeRecursive :
    Nat → TypeKind → TypeKind → String → String → Bool → Bool → CheckResult
  | 0, _, _, _, _, _, _ => .fuelOut []
  | fuel+1, ot, nt, cmd, fname, oldU, newU =>
    if !isTypeInst nt then
      .ok (if oldU then []
           else [⟨.newReplyFieldTypeEnumOrStruct, cmd, some fname⟩])
    else
      match scalarBson ot with
      | none => .crash []
      | some obson =>
        match scalarBson nt with
        | none => .crash []
        | some nbson =>
          if obson.contains "any" && !nbson.contains "any" then
            .ok [⟨.oldReplyFieldBsonAny, cmd, some fname⟩]
          else if !obson.contains "any" && nbson.contains "any" then
            .ok [⟨.newReplyFieldBsonAny, cmd, some fname⟩]
          else if obson.contains "any" &&
              !allowAnyTypeList.contains (cmd ++ "-reply-" ++ fname) then
            .ok [⟨.replyFieldBsonAnyNotAllowed, cmd, some fname⟩]
          else
            let anyErrs : List Err :=
              if obson.contains "any" then
                (if cppOf ot != cppOf nt then
                   [⟨.replyFieldCppTypeNotEqual, cmd, some fname⟩] else [])
                ++ (if !oldU && serOf ot != serOf nt then
                      [⟨.replyFieldSerializerNotEqual, cmd, some fname⟩] else [])
                ++ (if !oldU && deserOf ot != deserOf nt then
                      [⟨.replyFieldDeserializerNotEqual, cmd, some fname⟩] else [])
              else []
            match ot with
            | .variantT _ _ _ _ _ ovts ovst =>
              CheckResult.withPre anyErrs
                (CheckResult.andThen
                  (replyVariantArms fuel
                    (match nt with
                     | .variantT _ _ _ _ _ nvts _ => nvts
                     | _ => [nt])
                    ovts cmd fname oldU newU)
                  (match nt with
                   | .variantT _ _ _ _ _ _ (some nvst) =>
                     match ovst with
                     | none =>
                       if !oldU then
                         .ok [⟨.newReplyFieldVariantTypeNotSubset, cmd, some fname⟩]
                       else .crash []
                     | some osd => checkReplyFields fuel osd nvst cmd
                   | _ => .ok []))
            | _ =>
              .ok (anyErrs ++
                (if oldU then []
                 else
                   match nt with
                   | .variantT .. => [⟨.newReplyFieldVariantType, cmd, some fname⟩]
                   | _ =>
                     if subsetB nbson obson then []
                     else [⟨.replyFieldNotSubset, cmd, some fname⟩]))

/-- The reply-side variant loop: every new variant arm must match an old arm
by name (errors when the old field is stable); matched arms recurse. -/
def replyVariantArms :
    Nat → List TypeKind → List TypeKind → String → String → Bool → Bool →
    CheckResult
  | 0, _, _, _, _, _, _ => .fuelOut []
  | _+1, [], _, _, _, _, _ => .ok []
  | fuel+1, nv :: rest, ovts, cmd, fname, oldU, newU =>
    CheckResult.andThen
      (match ovts.find? (fun ov => ov.tname == nv.tname) with
       | some ov =>
         checkReplyFieldType fuel ⟨⟨some ov, oldU⟩, ⟨some nv, newU⟩, cmd, fname⟩
       | none =>
         .ok (if oldU then []
              else [⟨.newReplyFieldVariantTypeNotSubset, cmd, some fname⟩]))
      (replyVariantArms fuel rest ovts cmd fname oldU newU)

/-- `check_reply_field`: stability, optionality and validator transitions,
then the type comparison. -/
def checkReplyField : Nat → FieldDef → FieldDef → String → CheckResult
  | 0, _, _, _ => .fuelOut []
  | fuel+1, ofd, nfd, cmd =>
    let es : List Err :=
      if !ofd.unstableF then
        (if nfd.unstableF then [⟨.newReplyFieldUnstable, cmd, some nfd.fname⟩]
         else [])
        ++ (if nfd.optionalF && !ofd.optionalF then
              [⟨.newReplyFieldOptional, cmd, some nfd.fname⟩] else [])
        ++ (match nfd.validator with
            | some nv =>
              match ofd.validator with
              | some ov =>
                if nv != ov then
                  [⟨.replyFieldValidatorsNotEqual, cmd, some nfd.fname⟩]
                else []
              | none => [⟨.replyFieldContainsValidator, cmd, some nfd.fname⟩]
            | none => [])
      else []
    CheckResult.withPre es
      (checkReplyFieldType fuel
        ⟨⟨ofd.resolvedType, ofd.unstableF⟩, ⟨nfd.resolvedType, nfd.unstableF⟩,
         cmd, ofd.fname⟩)

/-- `check_reply_fields`: match old fields by name (loop one), then check
newly added fields (loop two). -/
def checkReplyFields : Nat → StructDef → StructDef → String → CheckResult
  | 0, _, _, _ => .fuelOut []
  | fuel+1, osd, nsd, cmd =>
    CheckResult.andThen (replyOldFieldsLoop fuel osd.fields nsd cmd)
      (newlyAddedReplyChecks cmd osd.fields nsd.fields)

/-- The first loop of `check_reply_fields`: every old field either matches a
new field by name or, when stable, records a missing-field error. -/
def replyOldFieldsLoop : Nat → List FieldDef → StructDef → String → CheckResult
  | 0, _, _, _ => .fuelOut []
  | _+1, [], _, _ => .ok []
  | fuel+1, ofd :: rest, nsd, cmd =>
    CheckResult.andThen
      (match nsd.fields.find? (fun nf => nf.fname == ofd.fname) with
       | some nf => checkReplyField fuel ofd nf cmd
       | none =>
         .ok (if ofd.unstableF then []
              else [⟨.newReplyFieldMissing, cmd, some ofd.fname⟩]))
      (replyOldFieldsLoop fuel rest nsd cmd)

/-- `check_param_or_command_type`. -/
def checkParamOrCommandType : Nat → FieldPair → Bool → CheckResult
  | 0, _, _ => .fuelOut []
  | fuel+1, pair, isParam =>
    match checkArrayType
        (if isParam then "command_parameter" else "command_namespace")
        pair.oldf.ftype pair.newf.ftype pair.cmdName
        (if isParam then pair.fieldName else "type") pair.oldf.unstableC with
    | .outCrash => .crash []
    | .outRes .invalidR es => .ok es
    | .outRes .trueR es =>
      (match elementTypeOf pair.oldf.ftype, elementTypeOf pair.newf.ftype with
       | some oe, some ne =>
         CheckResult.withPre es
           (checkParamOrCommandTypeCore fuel oe ne pair.cmdName pair.fieldName
             pair.oldf.unstableC pair.newf.unstableC isParam)
       | _, _ => .crash es)
    | .outRes .falseR es =>
      CheckResult.withPre es
        (checkParamOrCommandTypeCore fuel pair.oldf.ftype pair.newf.ftype
          pair.cmdName pair.fieldName pair.oldf.unstableC pair.newf.unstableC
          isParam)

/-- `check_param_or_command_type` after array unwrapping: the two fatal
unresolved-type exits, then the Type/Enum/Struct dispatch. -/
def checkParamOrCommandTypeCore :
    Nat → Option TypeKind → Option TypeKind → String → String → Bool → Bool →
    Bool → CheckResult
  | 0, _, _, _, _, _, _, _ => .fuelOut []
  | fuel+1, oldT, newT, cmd, pname, oldU, newU, isParam =>
    match oldT with
    | none => .fatal [⟨.commandOrParamTypeInvalid, cmd, some pname⟩]
    | some ot =>
      match newT with
      | none => .fatal [⟨.commandOrParamTypeInvalid, cmd, some pname⟩]
      | some nt =>
        if isTypeInst ot then
          checkParamOrCommandTypeRecursive fuel ot nt cmd pname oldU newU isParam
        else
          match ot with
          | .enumT _ ovals =>
            if oldU then .ok []
            else
              match nt with
              | .enumT _ nvals =>
                .ok (if subsetB ovals nvals then []
                     else [⟨.commandOrParamTypeNotSuperset, cmd, some pname⟩])
              | _ => .ok [⟨.newCommandOrParamTypeNotEnum, cmd, some pname⟩]
          | .structT osd =>
            match nt with
            | .structT nsd =>
              checkCommandParamsOrTypeStructFields fuel osd nsd cmd isParam
            | _ =>
              .ok (if oldU then []
                   else [⟨.newCommandOrParamTypeNotStruct, cmd, some pname⟩])
          | _ => .ok []

/-- `check_param_or_command_type_recursive`. -/
def checkParamOrCommandTypeRecursive :
    Nat → TypeKind → TypeKind → String → String → Bool → Bool → Bool →
    CheckResult
  | 0, _, _, _, _, _, _, _ => .fuelOut []
  | fuel+1, ot, nt, cmd, pname, oldU, newU, isParam =>
    if !isTypeInst nt then
      .ok (if oldU then []
           else [⟨.newCommandOrParamTypeEnumOrStruct, cmd, some pname⟩])
    else
      match scalarBson ot with
      | none => .crash []
      | some obson =>
        match scalarBson nt with
        | none => .crash []
        | some nbson =>
          if obson.contains "any" && !nbson.contains "any" then
            .ok [⟨.oldCommandOrParamBsonAny, cmd, some pname⟩]
          else if !obson.contains "any" && nbson.contains "any" then
            .ok [⟨.newCommandOrParamBsonAny, cmd, some pname⟩]
          else if obson.contains "any" &&
              !allowAnyTypeList.contains
                (if isParam then cmd ++ "-param-" ++ pname else cmd) then
            .ok [⟨.commandOrParamBsonAnyNotAllowed, cmd, some pname⟩]
          else
            let anyErrs : List Err :=
              if obson.contains "any" then
                (if cppOf ot != cppOf nt then
                   [⟨.commandOrParamCppTypeNotEqual, cmd, some pname⟩] else [])
                ++ (if !oldU && serOf ot != serOf nt then
                      [⟨.commandOrParamSerializerNotEqual, cmd, some pname⟩]
                    else [])
                ++ (if !oldU && deserOf ot != deserOf nt then
                      [⟨.commandOrParamDeserializerNotEqual, cmd, some pname⟩]
                    else [])
              else []
            match ot with
            | .variantT _ _ _ _ _ ovts ovst =>
              (match nt with
               | .variantT _ _ _ _ _ nvts nvst =>
                 CheckResult.withPre anyErrs
                   (CheckResult.andThen
                     (paramVariantArms fuel ovts nvts cmd pname oldU newU isParam)
                     (match ovst with
                      | some osd =>
                        match nvst with
                        | some nsd =>
                          checkCommandParamsOrTypeStructFields fuel osd nsd cmd
                            isParam
                        | none =>
                          .ok (if oldU then []
                               else [⟨.newCommandOrParamVariantTypeNotSuperset,
                                      cmd, some pname⟩])
                      | none => .ok []))
               | _ =>
                 .ok (anyErrs ++
                   (if oldU then []
                    else [⟨.newCommandOrParamTypeNotVariant, cmd, some pname⟩])))
            | _ =>
              .ok (anyErrs ++
                (if oldU then []
                 else
                   if subsetB obson nbson then []
                   else [⟨.commandOrParamTypeNotSuperset, cmd, some pname⟩]))

/-- The parameter-side variant loop: every old variant arm must match a new
arm by name (errors when the old field is stable); matched arms recurse. -/
def paramVariantArms :
    Nat → List TypeKind → List TypeKind → String → String → Bool → Bool →
    Bool → CheckResult
  | 0, _, _, _, _, _, _, _ => .fuelOut []
  | _+1, [], _, _, _, _, _, _ => .ok []
  | fuel+1, ov :: rest, nvts, cmd, pname, oldU, newU, isParam =>
    CheckResult.andThen
      (match nvts.find? (fun nv => ov.tname == nv.tname) with
       | some nv =>
         checkParamOrCommandType fuel
           ⟨⟨some ov, oldU⟩, ⟨some nv, newU⟩, cmd, pname⟩ isParam
       | none =>
         .ok (if oldU then []
              else [⟨.newCommandOrParamVariantTypeNotSuperset, cmd, some pname⟩]))
      (paramVariantArms fuel rest nvts cmd pname oldU newU isParam)

/-- `check_command_param_or_type_struct_field`: stability, default,
optionality and validator transitions, then the type comparison. -/
def checkCommandParamOrTypeStructField :
    Nat → FieldDef → FieldDef → String → Bool → CheckResult
  | 0, _, _, _, _ => .fuelOut []
  | fuel+1, ofd, nfd, cmd, isParam =>
    let es : List Err :=
      (if !ofd.unstableF && nfd.unstableF then
         [⟨.newParamOrTypeFieldUnstable, cmd, some ofd.fname⟩] else [])
      ++ (if ofd.unstableF && !nfd.unstableF && !nfd.optionalF &&
            !nfd.hasDefault then
            [⟨.newParamOrTypeFieldStableRequiredNoDefault, cmd, some ofd.fname⟩]
          else [])
      ++ (if ofd.optionalF && !nfd.optionalF then
            [⟨.newParamOrTypeFieldRequired, cmd, some ofd.fname⟩] else [])
      ++ (if !ofd.unstableF then
            (match nfd.validator with
             | some nv =>
               (match ofd.validator with
                | some ov =>
                  if nv != ov then
                    [⟨.commandOrParamValidatorsNotEqual, cmd, some nfd.fname⟩]
                  else []
                | none =>
                  [⟨.commandOrParamContainsValidator, cmd, some nfd.fname⟩])
             | none => [])
          else [])
    CheckResult.withPre es
      (checkParamOrCommandType fuel
        ⟨⟨ofd.resolvedType, ofd.unstableF⟩, ⟨nfd.resolvedType, nfd.unstableF⟩,
         cmd, ofd.fname⟩ isParam)

/-- `check_command_params_or_type_struct_fields`: match old fields by name
(loop one), then check newly added fields (loop two). -/
def checkCommandParamsOrTypeStructFields :
    Nat → StructDef → StructDef → String → Bool → CheckResult
  | 0, _, _, _, _ => .fuelOut []
  | fuel+1, osd, nsd, cmd, isParam =>
    CheckResult.andThen (paramOldFieldsLoop fuel osd.fields nsd cmd isParam)
      (newlyAddedParamChecks cmd osd.fields isParam nsd.fields)

/-- The first loop of `check_command_params_or_type_struct_fields`. -/
def paramOldFieldsLoop :
    Nat → List FieldDef → StructDef → String → Bool → CheckResult
  | 0, _, _, _, _ => .fuelOut []
  | _+1, [], _, _, _ => .ok []
  | fuel+1, ofd :: rest, nsd, cmd, isParam =>
    CheckResult.andThen
      (match nsd.fields.find? (fun nf => nf.fname == ofd.fname) with
       | some nf => checkCommandParamOrTypeStructField fuel ofd nf cmd isParam
       | none =>
         .ok (if ofd.unstableF then []
              else [⟨.newParamOrTypeFieldMissing, cmd, some ofd.fname⟩]))
      (paramOldFieldsLoop fuel rest nsd cmd isParam)

/-- `check_namespace`: the namespace-kind transition table. -/
def checkNamespace : Nat → CommandDef → CommandDef → CheckResult
  | 0, _, _ => .fuelOut []
  | fuel+1, oc, nc =>
    match oc.namespaceKind with
    | .ignored =>
      .ok (if nc.namespaceKind != .ignored then
             [⟨.newNamespaceIncompatible, oc.name, none⟩] else [])
    | .concatWithDbOrUuid =>
      .ok (if nc.namespaceKind != .ignored &&
             nc.namespaceKind != .concatWithDbOrUuid then
             [⟨.newNamespaceIncompatible, oc.name, none⟩] else [])
    | .concatWithDb =>
      .ok (if nc.namespaceKind == .typeNS then
             [⟨.newNamespaceIncompatible, oc.name, none⟩] else [])
    | .typeNS =>
      if nc.namespaceKind == .typeNS then
        checkParamOrCommandType fuel
          ⟨⟨oc.namespaceType, false⟩, ⟨nc.namespaceType, false⟩, oc.name, ""⟩
          false
      else
        match oc.namespaceType with
        | none => .crash []
        | some t =>
          if t.tname != "namespacestring" then
            .ok (if nc.namespaceKind != .ignored then
                   [⟨.newNamespaceIncompatible, oc.name, none⟩] else [])
          else .ok []

end

/-- The per-command-pair body of `check_compatibility`: strictness, the
parameter fields (input direction), the namespace, the reply fields (output
direction) and the access checks. -/
def checkCommandPair : Nat → CommandDef → CommandDef → CheckResult
  | 0, _, _ => .fuelOut []
  | fuel+1, oc, nc =>
    CheckResult.withPre
      (if !oc.strict && nc.strict then [⟨.commandStrictTrue, nc.name, none⟩]
       else [])
      (CheckResult.andThen
        (checkCommandParamsOrTypeStructFields fuel (cmdStruct oc) (cmdStruct nc)
          oc.name true)
        (CheckResult.andThen (checkNamespace fuel oc nc)
          (CheckResult.andThen
            (checkReplyFields fuel oc.replyType nc.replyType oc.name)
            (.ok (checkSecurityAccessChecks oc.accessCheck nc.accessCheck
              oc.name oc.apiVersion)))))

/-- The old-generation traversal of `check_compatibility`: every old command
with api version "1" that is not imported is either matched by name in the
new generation (then checked pairwise) or recorded as removed.  `seen`
carries the duplicate-name bookkeeping of the `old_commands` dict. -/
def checkGenerationPair :
    Nat → List CommandDef → List String → List CommandDef → CheckResult
  | 0, _, _, _ => .fuelOut []
  | _+1, [], _, _ => .ok []
  | fuel+1, oc :: rest, seen, newCmds =>
    if oc.apiVersion == "" || oc.imported then
      checkGenerationPair fuel rest seen newCmds
    else if oc.apiVersion != "1" then
      CheckResult.withPre [⟨.commandInvalidApiVersion, oc.name, none⟩]
        (checkGenerationPair fuel rest seen newCmds)
    else if seen.contains oc.name then
      CheckResult.withPre [⟨.duplicateCommandName, oc.name, none⟩]
        (checkGenerationPair fuel rest seen newCmds)
    else
      CheckResult.andThen
        (match newCmds.find? (fun c => c.name == oc.name) with
         | some nc => checkCommandPair fuel oc nc
         | none => .ok [⟨.commandRemoved, oc.name, none⟩])
        (checkGenerationPair fuel rest (oc.name :: seen) newCmds)

end IdlCompat


namespace IdlCompat

/-- C1 -/
theorem c1_enum_direction_polarized
    (fuel : Nat) (cmd fname oname nname : String) (ovals nvals : List String)
    (isParam u' : Bool) :
    (checkReplyFieldType (fuel+2)
        ⟨⟨some (.enumT oname ovals), false⟩, ⟨some (.enumT nname nvals), u'⟩, cmd, fname⟩ =
      .ok (if subsetB nvals ovals then []
           else [⟨.replyFieldNotSubset, cmd, some fname⟩]))
    ∧ (checkParamOrCommandType (fuel+2)
        ⟨⟨some (.enumT oname ovals), false⟩, ⟨some (.enumT nname nvals), u'⟩, cmd, fname⟩ isParam =
      .ok (if subsetB ovals nvals then []
           else [⟨.commandOrParamTypeNotSuperset, cmd, some fname⟩]))
    ∧ (subsetB nvals ovals = true → subsetB ovals nvals = true →
        checkReplyFieldType (fuel+2)
          ⟨⟨some (.enumT oname ovals), false⟩, ⟨some (.enumT nname nvals), u'⟩, cmd, fname⟩ = .ok []
        ∧ checkParamOrCommandType (fuel+2)
          ⟨⟨some (.enumT oname ovals), false⟩, ⟨some (.enumT nname nvals), u'⟩, cmd, fname⟩ isParam = .ok []) := by
  refine ⟨?_, ?_, ?_⟩
  · simp [checkReplyFieldType, checkArrayType, isArrayO, isArrayT,
      checkReplyFieldTypeCore, isTypeInst, CheckResult.withPre]
  · simp [checkParamOrCommandType, checkArrayType, isArrayO, isArrayT,
      checkParamOrCommandTypeCore, isTypeInst, CheckResult.withPre]
  · intro h1 h2
    constructor
    · simp [checkReplyFieldType, checkArrayType, isArrayO, isArrayT,
        checkReplyFieldTypeCore, isTypeInst, CheckResult.withPre, h1]
    · simp [checkParamOrCommandType, checkArrayType, isArrayO, isArrayT,
        checkParamOrCommandTypeCore, isTypeInst, CheckResult.withPre, h2]


theorem elementTypeOf_eq_none (t : Option TypeKind) (h : isArrayO t = false) :
    elementTypeOf t = none := by
  cases t with
  | none => rfl
  | some tk => cases tk <;> simp_all [isArrayO, isArrayT, elementTypeOf]

theorem isArrayO_elim (t : Option TypeKind) (h : isArrayO t = true) :
    ∃ n e, t = some (.arrayT n e) := by
  cases t with
  | none => simp [isArrayO] at h
  | some tk =>
    cases tk <;> simp_all [isArrayO, isArrayT]

theorem checkArrayType_mismatch_unstable (sym : String) (oldT newT : Option TypeKind)
    (cmd symName : String) (h : isArrayO oldT ≠ isArrayO newT) :
    checkArrayType sym oldT newT cmd symName true = .outRes .trueR [] := by
  rcases ho : isArrayO oldT <;> rcases hn : isArrayO newT <;>
    simp_all [checkArrayType]

/-- C10 -/
theorem c10_array_mismatch_unstable_partial
    (fuel : Nat) (sym cmd symName fname : String) (oldT newT : Option TypeKind)
    (u' : Bool) (isParam : Bool)
    (hmismatch : isArrayO oldT ≠ isArrayO newT) :
    checkArrayType sym oldT newT cmd symName true = .outRes .trueR []
    ∧ checkReplyFieldType (fuel+1) ⟨⟨oldT, true⟩, ⟨newT, u'⟩, cmd, fname⟩ = .crash []
    ∧ checkParamOrCommandType (fuel+1) ⟨⟨oldT, true⟩, ⟨newT, u'⟩, cmd, fname⟩ isParam
        = .crash [] := by
  refine ⟨checkArrayType_mismatch_unstable sym oldT newT cmd symName hmismatch, ?_, ?_⟩
  · simp only [checkReplyFieldType]
    rw [checkArrayType_mismatch_unstable _ _ _ _ _ hmismatch]
    rcases ho : isArrayO oldT with _ | _
    · rw [elementTypeOf_eq_none oldT ho]
    · have hn : isArrayO newT = false := by
        rcases hv : isArrayO newT
        · rfl
        · rw [ho, hv] at hmismatch; exact absurd rfl hmismatch
      obtain ⟨n, e, rfl⟩ := isArrayO_elim oldT ho
      rw [elementTypeOf_eq_none newT hn]
      rfl
  · simp only [checkParamOrCommandType]
    rw [checkArrayType_mismatch_unstable _ _ _ _ _ hmismatch]
    rcases ho : isArrayO oldT with _ | _
    · rw [elementTypeOf_eq_none oldT ho]
    · have hn : isArrayO newT = false := by
        rcases hv : isArrayO newT
        · rfl
        · rw [ho, hv] at hmismatch; exact absurd rfl hmismatch
      obtain ⟨n, e, rfl⟩ := isArrayO_elim oldT ho
      rw [elementTypeOf_eq_none newT hn]
      rfl


theorem scalarBson_of_typeInst (t : TypeKind) (h1 : isTypeInst t = true)
    (h2 : isArrayT t = false) : ∃ bs, scalarBson t = some bs := by
  cases t <;> simp_all [isTypeInst, isArrayT, scalarBson]

theorem withPre_nil (r : CheckResult) : CheckResult.withPre [] r = r := by
  cases r <;> simp [CheckResult.withPre]

theorem checkArrayType_neither (sym : String) (oldT newT : Option TypeKind)
    (cmd symName : String) (u : Bool)
    (h1 : isArrayO oldT = false) (h2 : isArrayO newT = false) :
    checkArrayType sym oldT newT cmd symName u = .outRes .falseR [] := by
  simp [checkArrayType, h1, h2]

theorem checkReplyFieldType_nonarray (fuel : Nat) (pair : FieldPair)
    (h1 : isArrayO pair.oldf.ftype = false) (h2 : isArrayO pair.newf.ftype = false) :
    checkReplyFieldType (fuel+1) pair =
      checkReplyFieldTypeCore fuel pair.oldf.ftype pair.newf.ftype
        pair.cmdName pair.fieldName pair.oldf.unstableC pair.newf.unstableC := by
  simp [checkReplyFieldType,
    checkArrayType_neither "reply_field" pair.oldf.ftype pair.newf.ftype
      pair.cmdName "type" pair.oldf.unstableC h1 h2, withPre_nil]

theorem checkParamOrCommandType_nonarray (fuel : Nat) (pair : FieldPair)
    (isParam : Bool)
    (h1 : isArrayO pair.oldf.ftype = false) (h2 : isArrayO pair.newf.ftype = false) :
    checkParamOrCommandType (fuel+1) pair isParam =
      checkParamOrCommandTypeCore fuel pair.oldf.ftype pair.newf.ftype
        pair.cmdName pair.fieldName pair.oldf.unstableC pair.newf.unstableC
        isParam := by
  simp [checkParamOrCommandType,
    checkArrayType_neither (if isParam then "command_parameter" else "command_namespace")
      pair.oldf.ftype pair.newf.ftype pair.cmdName
      (if isParam then pair.fieldName else "type") pair.oldf.unstableC h1 h2,
    withPre_nil]

theorem checkReplyFieldTypeCore_typeInst (fuel : Nat) (ot nt : TypeKind)
    (cmd fname : String) (oldU newU : Bool) (h : isTypeInst ot = true) :
    checkReplyFieldTypeCore (fuel+1) (some ot) (some nt) cmd fname oldU newU =
      checkReplyFieldTypeRecursive fuel ot nt cmd fname oldU newU := by
  simp [checkReplyFieldTypeCore, h]

theorem checkParamOrCommandTypeCore_typeInst (fuel : Nat) (ot nt : TypeKind)
    (cmd pname : String) (oldU newU isParam : Bool) (h : isTypeInst ot = true) :
    checkParamOrCommandTypeCore (fuel+1) (some ot) (some nt) cmd pname oldU newU
        isParam =
      checkParamOrCommandTypeRecursive fuel ot nt cmd pname oldU newU isParam := by
  simp [checkParamOrCommandTypeCore, h]

/-- C5 counterexample -/
theorem c5_allowlist_gate_counterexample :
    (["any"] : List String).contains "any" = true
    ∧ allowAnyTypeList.contains ("c" ++ "-reply-" ++ "f") = false
    ∧ checkReplyFieldType 5
        ⟨⟨some (.scalar "anyT" ["any"] none none none), true⟩,
         ⟨some (.enumT "E" ["x"]), true⟩, "c", "f"⟩ = .ok [] := by
  decide

/-- C5 amended -/
theorem c5_allowlist_gate_amended
    (fuel : Nat) (cmd fname oname : String) (obs : List String)
    (c s d : Option String) (nt : TypeKind) (oldU newU isParam : Bool)
    (hany : "any" ∈ obs)
    (hallowR : (cmd ++ "-reply-" ++ fname) ∉ allowAnyTypeList)
    (hallowP : (if isParam then cmd ++ "-param-" ++ fname else cmd) ∉ allowAnyTypeList)
    (hinst : isTypeInst nt = true) (hnarr : isArrayT nt = false) :
    (checkReplyFieldType (fuel+3)
      ⟨⟨some (.scalar oname obs c s d), oldU⟩, ⟨some nt, newU⟩, cmd, fname⟩).errors ≠ []
    ∧ (checkParamOrCommandType (fuel+3)
      ⟨⟨some (.scalar oname obs c s d), oldU⟩, ⟨some nt, newU⟩, cmd, fname⟩
      isParam).errors ≠ [] := by
  have h1 : isArrayO (some (TypeKind.scalar oname obs c s d)) = false := rfl
  have hnotarr : isArrayO (some nt) = false := by simpa [isArrayO] using hnarr
  have hio : isTypeInst (TypeKind.scalar oname obs c s d) = true := rfl
  constructor
  · rw [checkReplyFieldType_nonarray (fuel+2) _ h1 hnotarr,
      checkReplyFieldTypeCore_typeInst (fuel+1) _ _ _ _ _ _ hio]
    simp only [checkReplyFieldTypeRecursive, hinst]
    cases nt <;> simp_all [isTypeInst, isArrayT, scalarBson] <;>
      by_cases hc : "any" ∈ ‹List String› <;>
        simp_all [CheckResult.errors, CheckResult.withPre]
  · rw [checkParamOrCommandType_nonarray (fuel+2) _ isParam h1 hnotarr,
      checkParamOrCommandTypeCore_typeInst (fuel+1) _ _ _ _ _ _ _ hio]
    simp only [checkParamOrCommandTypeRecursive, hinst]
    cases nt <;> simp_all [isTypeInst, isArrayT, scalarBson] <;>
      by_cases hc : "any" ∈ ‹List String› <;>
        simp_all [CheckResult.errors, CheckResult.withPre]


end IdlCompat

namespace IdlCompat

/-- Concrete witness for `c1_enum_direction_polarized`: equal enum value sets
give no error in either direction. -/
theorem c1_enum_direction_polarized_witness :
    subsetB ["a"] ["a"] = true ∧
    (checkReplyFieldType 2
        ⟨⟨some (.enumT "E" ["a"]), false⟩, ⟨some (.enumT "E" ["a"]), false⟩,
         "cmd", "f"⟩ = .ok []
     ∧ checkParamOrCommandType 2
        ⟨⟨some (.enumT "E" ["a"]), false⟩, ⟨some (.enumT "E" ["a"]), false⟩,
         "cmd", "f"⟩ true = .ok []) :=
  ⟨by decide,
   (c1_enum_direction_polarized 0 "cmd" "f" "E" "E" ["a"] ["a"] true false).2.2
     (by decide) (by decide)⟩

/-- Concrete witness for `c10_array_mismatch_unstable_partial`: an array/
non-array pair under an unstable old field makes the comparison crash. -/
theorem c10_array_mismatch_unstable_partial_witness :
    (isArrayO (some (.arrayT "arr" (some (.scalar "string" ["string"] none none none))))
      ≠ isArrayO (some (.scalar "string" ["string"] none none none)))
    ∧ (checkArrayType "reply_field"
        (some (.arrayT "arr" (some (.scalar "string" ["string"] none none none))))
        (some (.scalar "string" ["string"] none none none)) "cmd" "type" true
        = .outRes .trueR []
      ∧ checkReplyFieldType 1
          ⟨⟨some (.arrayT "arr" (some (.scalar "string" ["string"] none none none))), true⟩,
           ⟨some (.scalar "string" ["string"] none none none), false⟩, "cmd", "f"⟩
          = .crash []
      ∧ checkParamOrCommandType 1
          ⟨⟨some (.arrayT "arr" (some (.scalar "string" ["string"] none none none))), true⟩,
           ⟨some (.scalar "string" ["string"] none none none), false⟩, "cmd", "f"⟩ true
          = .crash []) :=
  ⟨by decide,
   c10_array_mismatch_unstable_partial 0 "reply_field" "cmd" "type" "f"
     (some (.arrayT "arr" (some (.scalar "string" ["string"] none none none))))
     (some (.scalar "string" ["string"] none none none)) false true (by decide)⟩

/-- Concrete witness for `c5_allowlist_gate_amended`. -/
theorem c5_allowlist_gate_amended_witness :
    ("any" ∈ (["any"] : List String))
    ∧ (("c" ++ "-reply-" ++ "f") ∉ allowAnyTypeList)
    ∧ ((if true then "c" ++ "-param-" ++ "f" else "c") ∉ allowAnyTypeList)
    ∧ ((checkReplyFieldType 3
        ⟨⟨some (.scalar "anyT" ["any"] none none none), false⟩,
         ⟨some (.scalar "s" ["string"] none none none), false⟩, "c", "f"⟩).errors ≠ []
      ∧ (checkParamOrCommandType 3
        ⟨⟨some (.scalar "anyT" ["any"] none none none), false⟩,
         ⟨some (.scalar "s" ["string"] none none none), false⟩, "c", "f"⟩ true).errors ≠ []) :=
  ⟨by decide, by decide, by decide,
   c5_allowlist_gate_amended 0 "c" "f" "anyT" ["any"] none none none
     (.scalar "s" ["string"] none none none) false false true
     (by decide) (by decide) (by decide) rfl rfl⟩


end IdlCompat

namespace IdlCompat

/-- C8 counterexample -/
theorem c8_namespace_lattice_counterexample :
    checkNamespace 5
      ⟨"c", "1", false, true, .typeNS,
       some (.scalar "namespacestring" ["string"] none none none), [],
       .mk "R" [], none⟩
      ⟨"c", "1", false, true, .concatWithDb, none, [], .mk "R" [], none⟩
      = .ok []
    ∧ ¬(("namespacestring" : String) ≠ "namespacestring"
        ∨ NsKind.concatWithDb = NsKind.ignored) := by
  constructor
  · decide
  · decide

/-- C8 amended -/
theorem c8_namespace_lattice_amended
    (fuel : Nat) (oc nc : CommandDef) (t : TypeKind) :
    (oc.namespaceKind = .concatWithDbOrUuid →
      checkNamespace (fuel+1) oc nc =
        .ok (if nc.namespaceKind = .typeNS ∨ nc.namespaceKind = .concatWithDb
             then [⟨.newNamespaceIncompatible, oc.name, none⟩] else []))
    ∧ (oc.namespaceKind = .typeNS → nc.namespaceKind ≠ .typeNS →
      oc.namespaceType = some t →
      checkNamespace (fuel+1) oc nc =
        .ok (if t.tname ≠ "namespacestring" ∧ nc.namespaceKind ≠ .ignored
             then [⟨.newNamespaceIncompatible, oc.name, none⟩] else [])) := by
  constructor
  · intro h1
    simp only [checkNamespace, h1]
    rcases h2 : nc.namespaceKind <;> simp [h2]
  · intro h1 h2 h3
    simp only [checkNamespace, h1, h3]
    rcases h4 : nc.namespaceKind <;> rcases h5 : t.tname == "namespacestring" <;>
      simp_all [bne]

theorem errors_withPre (es : List Err) (r : CheckResult) :
    (CheckResult.withPre es r).errors = es ++ r.errors := by
  cases r <;> simp [CheckResult.withPre, CheckResult.errors]

/-- C4 counterexample -/
theorem c4_optional_tightening_counterexample :
    (FieldDef.mk "f" (some (.scalar "string" ["string"] none none none))
        true false false none).optionalF = true
    ∧ (FieldDef.mk "f" (some (.scalar "string" ["string"] none none none))
        false false false none).optionalF = false
    ∧ checkReplyField 5
        (.mk "f" (some (.scalar "string" ["string"] none none none)) true false false none)
        (.mk "f" (some (.scalar "string" ["string"] none none none)) false false false none)
        "c" = .ok [] := by
  decide

/-- C4 amended -/
theorem c4_optional_tightening_amended
    (fuel : Nat) (ofd nfd : FieldDef) (cmd : String) (isParam : Bool) :
    (ofd.optionalF = true → nfd.optionalF = false →
      (⟨.newParamOrTypeFieldRequired, cmd, some ofd.fname⟩ : Err) ∈
        (checkCommandParamOrTypeStructField (fuel+1) ofd nfd cmd isParam).errors)
    ∧ (ofd.unstableF = false → nfd.optionalF = true → ofd.optionalF = false →
      (⟨.newReplyFieldOptional, cmd, some nfd.fname⟩ : Err) ∈
        (checkReplyField (fuel+1) ofd nfd cmd).errors) := by
  constructor
  · intro h1 h2
    simp only [checkCommandParamOrTypeStructField]
    simp [errors_withPre, h1, h2]
  · intro h1 h2 h3
    simp only [checkReplyField]
    simp [errors_withPre, h1, h2, h3]

/-- Concrete witness for `c4_optional_tightening_amended`. -/
theorem c4_optional_tightening_amended_witness :
    ((FieldDef.mk "p" (some (.scalar "string" ["string"] none none none))
        true false false none).optionalF = true
      ∧ (FieldDef.mk "p" (some (.scalar "string" ["string"] none none none))
        false false false none).optionalF = false)
    ∧ (⟨.newParamOrTypeFieldRequired, "c", some "p"⟩ : Err) ∈
        (checkCommandParamOrTypeStructField 1
          (.mk "p" (some (.scalar "string" ["string"] none none none)) true false false none)
          (.mk "p" (some (.scalar "string" ["string"] none none none)) false false false none)
          "c" true).errors :=
  ⟨⟨by decide, by decide⟩,
   (c4_optional_tightening_amended 0
     (.mk "p" (some (.scalar "string" ["string"] none none none)) true false false none)
     (.mk "p" (some (.scalar "string" ["string"] none none none)) false false false none)
     "c" true).1 (by decide) (by decide)⟩

/-- Concrete witness for `c8_namespace_lattice_amended`. -/
theorem c8_namespace_lattice_amended_witness :
    checkNamespace 1
      ⟨"c", "1", false, true, .concatWithDbOrUuid, none, [], .mk "R" [], none⟩
      ⟨"c", "1", false, true, .typeNS, none, [], .mk "R" [], none⟩
      = .ok [⟨.newNamespaceIncompatible, "c", none⟩] := by
  simpa using
    (c8_namespace_lattice_amended 0
      ⟨"c", "1", false, true, .concatWithDbOrUuid, none, [], .mk "R" [], none⟩
      ⟨"c", "1", false, true, .typeNS, none, [], .mk "R" [], none⟩
      (.scalar "x" [] none none none)).1 rfl


end IdlCompat

namespace IdlCompat

theorem andThen_ok {r k : CheckResult} {es : List Err}
    (h : CheckResult.andThen r k = .ok es) :
    ∃ es₁ es₂, r = .ok es₁ ∧ k = .ok es₂ ∧ es = es₁ ++ es₂ := by
  cases r with
  | ok es₁ =>
    cases k <;> simp [CheckResult.andThen, CheckResult.withPre] at h
    case ok es₂ => exact ⟨es₁, es₂, rfl, rfl, h.symm⟩
  | fatal d => simp [CheckResult.andThen] at h
  | crash d => simp [CheckResult.andThen] at h
  | fuelOut d => simp [CheckResult.andThen] at h

theorem withPre_ok {es₀ : List Err} {r : CheckResult} {es : List Err}
    (h : CheckResult.withPre es₀ r = .ok es) :
    ∃ d, r = .ok d ∧ es = es₀ ++ d := by
  cases r <;> simp [CheckResult.withPre] at h
  exact ⟨_, rfl, h.symm⟩

theorem mem_errors_andThen {e : Err} {r k : CheckResult}
    (h : e ∈ (CheckResult.andThen r k).errors) :
    e ∈ r.errors ∨ e ∈ k.errors := by
  cases r with
  | ok es₁ =>
    rw [show CheckResult.andThen (.ok es₁) k = k.withPre es₁ from rfl,
      errors_withPre] at h
    simpa [CheckResult.errors] using List.mem_append.mp h
  | fatal d => exact .inl h
  | crash d => exact .inl h
  | fuelOut d => exact .inl h

theorem newlyAddedParamFieldAnyCheck_errors (cmd : String) (isParam : Bool)
    (nf : FieldDef) :
    ∀ e ∈ (newlyAddedParamFieldAnyCheck cmd isParam nf).errors,
      e.kind = .commandOrParamBsonAnyNotAllowed ∧ e.sub = some nf.fname := by
  intro e he
  unfold newlyAddedParamFieldAnyCheck at he
  rcases hrt : nf.resolvedType with _ | t <;> rw [hrt] at he
  · simp [CheckResult.errors] at he
  · by_cases h2 : isTypeInst t
    · rcases hsb : scalarBson t with _ | bs
      · simp [h2, hsb, CheckResult.errors] at he
      · simp only [h2, hsb, if_true] at he
        simp [CheckResult.errors] at he
        obtain ⟨-, rfl⟩ := he
        exact ⟨rfl, rfl⟩
    · simp [h2, CheckResult.errors] at he

theorem newlyAddedReplyFieldAnyCheck_errors (cmd : String) (nf : FieldDef) :
    ∀ e ∈ (newlyAddedReplyFieldAnyCheck cmd nf).errors,
      e.kind = .replyFieldBsonAnyNotAllowed := by
  intro e he
  unfold newlyAddedReplyFieldAnyCheck at he
  rcases hrt : nf.resolvedType with _ | t <;> rw [hrt] at he
  · simp [CheckResult.errors] at he
  · by_cases h2 : isTypeInst t
    · rcases hsb : scalarBson t with _ | bs
      · simp [h2, hsb, CheckResult.errors] at he
      · simp only [h2, hsb, if_true] at he
        simp [CheckResult.errors] at he
        obtain ⟨-, rfl⟩ := he
        rfl
    · simp [h2, CheckResult.errors] at he

theorem newlyAddedReplyChecks_errors (cmd : String) (oldFields : List FieldDef) :
    ∀ (nfs : List FieldDef),
      ∀ e ∈ (newlyAddedReplyChecks cmd oldFields nfs).errors,
        e.kind = .replyFieldBsonAnyNotAllowed := by
  intro nfs
  induction nfs with
  | nil => simp [newlyAddedReplyChecks, CheckResult.errors]
  | cons nf rest ih =>
    intro e he
    rw [newlyAddedReplyChecks] at he
    rcases mem_errors_andThen he with h | h
    · by_cases hall : oldFields.all (fun ofd => ofd.fname != nf.fname) = true
      · rw [if_pos hall] at h
        exact newlyAddedReplyFieldAnyCheck_errors cmd nf e h
      · rw [if_neg hall] at h
        simp [CheckResult.errors] at h
    · exact ih e h

theorem newlyAddedParam_mem (cmd : String) (oldFields : List FieldDef)
    (isParam : Bool) :
    ∀ (nfs : List FieldDef) (f : FieldDef) (es : List Err),
      newlyAddedParamChecks cmd oldFields isParam nfs = .ok es →
      f ∈ nfs → (∀ g ∈ oldFields, g.fname ≠ f.fname) →
      f.optionalF = false → f.unstableF = false →
      (⟨.newParamOrTypeFieldAddedRequired, cmd, some f.fname⟩ : Err) ∈ es := by
  intro nfs
  induction nfs with
  | nil => intro f es _ hf; cases hf
  | cons nf rest ih =>
    intro f es hres hf hold hopt huns
    rw [newlyAddedParamChecks] at hres
    obtain ⟨es₁, es₂, h1, h2, rfl⟩ := andThen_ok hres
    rcases List.mem_cons.mp hf with rfl | hf'
    · have hall : oldFields.all (fun g => g.fname != f.fname) = true := by
        rw [List.all_eq_true]
        intro g hg
        simpa using hold g hg
      rw [if_pos hall] at h1
      obtain ⟨d, _, rfl⟩ := withPre_ok h1
      rw [hopt, huns] at *
      simp
    · exact List.mem_append_right es₁ (ih f es₂ h2 hf' hold hopt huns)

theorem newlyAddedParam_sound (cmd : String) (oldFields : List FieldDef)
    (isParam : Bool) :
    ∀ (nfs : List FieldDef),
      ∀ e ∈ (newlyAddedParamChecks cmd oldFields isParam nfs).errors,
        e.kind = .newParamOrTypeFieldAddedRequired →
        ∃ nf, nf ∈ nfs ∧ e.sub = some nf.fname ∧
          nf.optionalF = false ∧ nf.unstableF = false ∧
          ∀ g ∈ oldFields, g.fname ≠ nf.fname := by
  intro nfs
  induction nfs with
  | nil => simp [newlyAddedParamChecks, CheckResult.errors]
  | cons nf rest ih =>
    intro e he hk
    rw [newlyAddedParamChecks] at he
    rcases mem_errors_andThen he with h | h
    · by_cases hall : oldFields.all (fun g => g.fname != nf.fname) = true
      · rw [if_pos hall] at h
        rw [errors_withPre] at h
        rcases List.mem_append.mp h with h' | h'
        · by_cases hro : (!nf.optionalF && !nf.unstableF) = true
          · rw [if_pos hro] at h'
            simp at h'
            subst h'
            refine ⟨nf, List.mem_cons_self _ _, rfl, ?_, ?_, ?_⟩
            · rcases ho : nf.optionalF
              · rfl
              · rw [ho] at hro; simp at hro
            · rcases hu : nf.unstableF
              · rfl
              · rw [hu] at hro; simp at hro
            · intro g hg
              have := (List.all_eq_true.mp hall) g hg
              simpa using this
          · rw [if_neg hro] at h'
            cases h'
        · have := (newlyAddedParamFieldAnyCheck_errors cmd isParam nf e h').1
          rw [this] at hk
          cases hk
      · rw [if_neg hall] at h
        simp [CheckResult.errors] at h
    · obtain ⟨nf', hmem, hrest⟩ := ih e h hk
      exact ⟨nf', List.mem_cons_of_mem _ hmem, hrest⟩

theorem paramsStructFields_decomp (fuel : Nat) (osd nsd : StructDef)
    (cmd : String) (isParam : Bool) (es : List Err)
    (h : checkCommandParamsOrTypeStructFields (fuel+1) osd nsd cmd isParam
        = .ok es) :
    ∃ es₁ es₂, es = es₁ ++ es₂ ∧
      newlyAddedParamChecks cmd osd.fields isParam nsd.fields = .ok es₂ := by
  rw [checkCommandParamsOrTypeStructFields] at h
  obtain ⟨es₁, es₂, _, h2, rfl⟩ := andThen_ok h
  exact ⟨es₁, es₂, rfl, h2⟩

theorem replyFields_decomp (fuel : Nat) (osd nsd : StructDef) (cmd : String)
    (es : List Err)
    (h : checkReplyFields (fuel+1) osd nsd cmd = .ok es) :
    ∃ es₁ es₂, es = es₁ ++ es₂ ∧
      newlyAddedReplyChecks cmd osd.fields nsd.fields = .ok es₂ := by
  rw [checkReplyFields] at h
  obtain ⟨es₁, es₂, _, h2, rfl⟩ := andThen_ok h
  exact ⟨es₁, es₂, rfl, h2⟩

/-- C3 -/
theorem c3_newly_added_input_only
    (fuel : Nat) (cmd : String) (osd nsd : StructDef) (isParam : Bool)
    (f : FieldDef) (es : List Err) :
    (newlyAddedParamChecks cmd osd.fields isParam nsd.fields = .ok es →
      f ∈ nsd.fields → (∀ g ∈ osd.fields, g.fname ≠ f.fname) →
      f.optionalF = false → f.unstableF = false →
      (⟨.newParamOrTypeFieldAddedRequired, cmd, some f.fname⟩ : Err) ∈ es)
    ∧ (∀ e ∈ (newlyAddedParamChecks cmd osd.fields isParam nsd.fields).errors,
        e.kind = .newParamOrTypeFieldAddedRequired →
        ∃ nf, nf ∈ nsd.fields ∧ e.sub = some nf.fname ∧
          nf.optionalF = false ∧ nf.unstableF = false ∧
          ∀ g ∈ osd.fields, g.fname ≠ nf.fname)
    ∧ (∀ e ∈ (newlyAddedReplyChecks cmd osd.fields nsd.fields).errors,
        e.kind = .replyFieldBsonAnyNotAllowed)
    ∧ (checkCommandParamsOrTypeStructFields (fuel+1) osd nsd cmd isParam
          = .ok es →
        ∃ es₁ es₂, es = es₁ ++ es₂ ∧
          newlyAddedParamChecks cmd osd.fields isParam nsd.fields = .ok es₂)
    ∧ (checkReplyFields (fuel+1) osd nsd cmd = .ok es →
        ∃ es₁ es₂, es = es₁ ++ es₂ ∧
          newlyAddedReplyChecks cmd osd.fields nsd.fields = .ok es₂) :=
  ⟨fun hres hf hold hopt huns =>
     newlyAddedParam_mem cmd osd.fields isParam nsd.fields f es hres hf hold
       hopt huns,
   newlyAddedParam_sound cmd osd.fields isParam nsd.fields,
   newlyAddedReplyChecks_errors cmd osd.fields nsd.fields,
   fun h => paramsStructFields_decomp fuel osd nsd cmd isParam es h,
   fun h => replyFields_decomp fuel osd nsd cmd es h⟩

/-- Concrete witness for `c3_newly_added_input_only`. -/
theorem c3_newly_added_input_only_witness :
    (newlyAddedParamChecks "c" (StructDef.mk "O" []).fields true
        (StructDef.mk "N" [.mk "f" (some (.scalar "string" ["string"] none none none))
          false false false none]).fields
      = .ok [⟨.newParamOrTypeFieldAddedRequired, "c", some "f"⟩])
    ∧ (⟨.newParamOrTypeFieldAddedRequired, "c", some "f"⟩ : Err) ∈
        [(⟨.newParamOrTypeFieldAddedRequired, "c", some "f"⟩ : Err)] :=
  ⟨by decide,
   (c3_newly_added_input_only 0 "c" (.mk "O" [])
     (.mk "N" [.mk "f" (some (.scalar "string" ["string"] none none none))
        false false false none]) true
     (.mk "f" (some (.scalar "string" ["string"] none none none))
        false false false none)
     [⟨.newParamOrTypeFieldAddedRequired, "c", some "f"⟩]).1
     (by decide) (List.mem_cons_self _ _)
     (fun g hg => absurd hg (List.not_mem_nil g)) (by decide) (by decide)⟩


end IdlCompat

namespace IdlCompat

/-- Claim-side formulation of the greedy privilege matching: the number of
new privileges left unmatched when each is matched, in order, against the
first remaining old privilege with equal resource pattern and a superset of
its action types, consuming the match. -/
def greedyUnmatchedCount : List Privilege → List Privilege → Nat
  | [], _ => 0
  | np :: rest, olds =>
    match olds.findIdx? (fun op =>
        np.resourcePattern == op.resourcePattern &&
        subsetB np.actionType op.actionType) with
    | some i => greedyUnmatchedCount rest (olds.eraseIdx i)
    | none => greedyUnmatchedCount rest olds + 1

theorem privMatchLoop_eq_replicate (cmd : String) :
    ∀ (nps olds : List Privilege),
      privMatchLoop cmd nps olds =
        List.replicate (greedyUnmatchedCount nps olds)
          ⟨.newComplexPrivilegesNotSubset, cmd, none⟩ := by
  intro nps
  induction nps with
  | nil => intro olds; rfl
  | cons np rest ih =>
    intro olds
    rw [privMatchLoop, greedyUnmatchedCount]
    rcases h : olds.findIdx? (fun op =>
        np.resourcePattern == op.resourcePattern &&
        subsetB np.actionType op.actionType) with _ | i <;> rw [h]
    · simp [ih, List.replicate_succ]
    · simp [ih]

/-- C7 -/
theorem c7_complex_access_checks
    (o n : AccessChecksDef) (cmdName apiVersion : String)
    (oc nc : List AccessCheckEntry)
    (ho : o.simpleA = none) (hn : n.simpleA = none)
    (hoc : o.complexA = some oc) (hnc : n.complexA = some nc) :
    checkSecurityAccessChecks (some o) (some n) cmdName apiVersion =
      (if nc.length > oc.length then
        [⟨.newAdditionalComplexAccessCheck, cmdName, none⟩]
      else
        (if !subsetB (splitComplexChecks nc).1 (splitComplexChecks oc).1 then
           [⟨.newComplexChecksNotSubset, cmdName, none⟩] else [])
        ++ (if (splitComplexChecks nc).2.length > (splitComplexChecks oc).2.length
            then [⟨.newComplexPrivilegesNotSubset, cmdName, none⟩]
            else List.replicate
                (greedyUnmatchedCount (splitComplexChecks nc).2
                  (splitComplexChecks oc).2)
                ⟨.newComplexPrivilegesNotSubset, cmdName, none⟩)) := by
  simp only [checkSecurityAccessChecks, accessCheckTypeOf, ho, hn, hoc, hnc,
    privMatchLoop_eq_replicate, Option.isSome_none, Option.isSome_some]
  simp


/-- Concrete witness for `c7_complex_access_checks`: one new privilege whose
action types grew is left unmatched and records exactly one error. -/
theorem c7_complex_access_checks_witness :
    checkSecurityAccessChecks
      (some ⟨none, some [⟨some "chk1", some ⟨"R", ["a", "b"]⟩⟩,
                         ⟨some "chk2", none⟩]⟩)
      (some ⟨none, some [⟨some "chk1", some ⟨"R", ["a", "b", "d"]⟩⟩]⟩)
      "cmd" "1" = [⟨.newComplexPrivilegesNotSubset, "cmd", none⟩] := by
  rw [c7_complex_access_checks _ _ _ _ _ _ rfl rfl rfl rfl]
  decide


end IdlCompat

namespace IdlCompat

/-- The only way a run terminates (`sys.exit(1)` after dumping) is with an
unresolved-type error recorded last. -/
def fatalInv (r : CheckResult) : Prop :=
  ∀ es, r = .fatal es → ∃ e, es.getLast? = some e ∧
    (e.kind = .replyFieldTypeInvalid ∨ e.kind = .commandOrParamTypeInvalid)

theorem fatalInv_ok (es : List Err) : fatalInv (.ok es) := by
  intro _ h; cases h

theorem fatalInv_crash (es : List Err) : fatalInv (.crash es) := by
  intro _ h; cases h

theorem fatalInv_fuelOut (es : List Err) : fatalInv (.fuelOut es) := by
  intro _ h; cases h

theorem fatalInv_fatal_reply (cmd : String) (sub : Option String) :
    fatalInv (.fatal [⟨.replyFieldTypeInvalid, cmd, sub⟩]) := by
  intro es he
  cases he
  exact ⟨_, rfl, Or.inl rfl⟩

theorem fatalInv_fatal_param (cmd : String) (sub : Option String) :
    fatalInv (.fatal [⟨.commandOrParamTypeInvalid, cmd, sub⟩]) := by
  intro es he
  cases he
  exact ⟨_, rfl, Or.inr rfl⟩

theorem fatalInv_withPre {r : CheckResult} (es : List Err) (h : fatalInv r) :
    fatalInv (CheckResult.withPre es r) := by
  intro es' he
  cases r with
  | fatal d =>
    simp [CheckResult.withPre] at he
    obtain ⟨e, h1, h2⟩ := h d rfl
    refine ⟨e, ?_, h2⟩
    subst he
    rcases d with _ | ⟨x, xs⟩
    · cases h1
    · rw [List.getLast?_append_of_ne_nil es (by simp)]
      exact h1
  | ok d => simp [CheckResult.withPre] at he
  | crash d => simp [CheckResult.withPre] at he
  | fuelOut d => simp [CheckResult.withPre] at he

theorem fatalInv_andThen {r k : CheckResult} (h1 : fatalInv r)
    (h2 : fatalInv k) : fatalInv (CheckResult.andThen r k) := by
  cases r with
  | ok es => exact fatalInv_withPre es h2
  | fatal d => exact h1
  | crash d => exact fatalInv_crash d
  | fuelOut d => exact fatalInv_fuelOut d

theorem fatalInv_newlyAddedReplyFieldAnyCheck (cmd : String) (nf : FieldDef) :
    fatalInv (newlyAddedReplyFieldAnyCheck cmd nf) := by
  unfold newlyAddedReplyFieldAnyCheck
  repeat' split
  all_goals first | exact fatalInv_ok _ | exact fatalInv_crash _

theorem fatalInv_newlyAddedParamFieldAnyCheck (cmd : String) (isParam : Bool)
    (nf : FieldDef) :
    fatalInv (newlyAddedParamFieldAnyCheck cmd isParam nf) := by
  unfold newlyAddedParamFieldAnyCheck
  repeat' split
  all_goals first | exact fatalInv_ok _ | exact fatalInv_crash _

theorem fatalInv_newlyAddedReplyChecks (cmd : String)
    (oldFields : List FieldDef) :
    ∀ nfs, fatalInv (newlyAddedReplyChecks cmd oldFields nfs) := by
  intro nfs
  induction nfs with
  | nil => exact fatalInv_ok _
  | cons nf rest ih =>
    rw [newlyAddedReplyChecks]
    apply fatalInv_andThen _ ih
    split
    · exact fatalInv_newlyAddedReplyFieldAnyCheck cmd nf
    · exact fatalInv_ok _

theorem fatalInv_newlyAddedParamChecks (cmd : String)
    (oldFields : List FieldDef) (isParam : Bool) :
    ∀ nfs, fatalInv (newlyAddedParamChecks cmd oldFields isParam nfs) := by
  intro nfs
  induction nfs with
  | nil => exact fatalInv_ok _
  | cons nf rest ih =>
    rw [newlyAddedParamChecks]
    apply fatalInv_andThen _ ih
    split
    · exact fatalInv_withPre _
        (fatalInv_newlyAddedParamFieldAnyCheck cmd isParam nf)
    · exact fatalInv_ok _


theorem fatalInv_ite (c : Prop) [Decidable c] {a b : CheckResult}
    (h1 : fatalInv a) (h2 : fatalInv b) : fatalInv (if c then a else b) := by
  by_cases h : c
  · rwa [if_pos h]
  · rwa [if_neg h]


theorem fatalInv_all : ∀ fuel : Nat,
    (∀ pair, fatalInv (checkReplyFieldType fuel pair))
    ∧ (∀ oldT newT cmd fname oldU newU,
        fatalInv (checkReplyFieldTypeCore fuel oldT newT cmd fname oldU newU))
    ∧ (∀ ot nt cmd fname oldU newU,
        fatalInv (checkReplyFieldTypeRecursive fuel ot nt cmd fname oldU newU))
    ∧ (∀ nvs ovs cmd fname oldU newU,
        fatalInv (replyVariantArms fuel nvs ovs cmd fname oldU newU))
    ∧ (∀ ofd nfd cmd, fatalInv (checkReplyField fuel ofd nfd cmd))
    ∧ (∀ osd nsd cmd, fatalInv (checkReplyFields fuel osd nsd cmd))
    ∧ (∀ ofs nsd cmd, fatalInv (replyOldFieldsLoop fuel ofs nsd cmd))
    ∧ (∀ pair isParam, fatalInv (checkParamOrCommandType fuel pair isParam))
    ∧ (∀ oldT newT cmd pname oldU newU isParam,
        fatalInv (checkParamOrCommandTypeCore fuel oldT newT cmd pname oldU newU
          isParam))
    ∧ (∀ ot nt cmd pname oldU newU isParam,
        fatalInv (checkParamOrCommandTypeRecursive fuel ot nt cmd pname oldU
          newU isParam))
    ∧ (∀ ovs nvs cmd pname oldU newU isParam,
        fatalInv (paramVariantArms fuel ovs nvs cmd pname oldU newU isParam))
    ∧ (∀ ofd nfd cmd isParam,
        fatalInv (checkCommandParamOrTypeStructField fuel ofd nfd cmd isParam))
    ∧ (∀ osd nsd cmd isParam,
        fatalInv (checkCommandParamsOrTypeStructFields fuel osd nsd cmd isParam))
    ∧ (∀ ofs nsd cmd isParam,
        fatalInv (paramOldFieldsLoop fuel ofs nsd cmd isParam))
    ∧ (∀ oc nc, fatalInv (checkNamespace fuel oc nc)) := by
  intro fuel
  induction fuel with
  | zero =>
    refine ⟨?_, ?_, ?_, ?_, ?_, ?_, ?_, ?_, ?_, ?_, ?_, ?_, ?_, ?_, ?_⟩ <;>
      intros <;> exact fatalInv_fuelOut _
  | succ fuel ih =>
    obtain ⟨ih1, ih2, ih3, ih4, ih5, ih6, ih7, ih8, ih9, ih10, ih11, ih12,
      ih13, ih14, ih15⟩ := ih
    refine ⟨?_, ?_, ?_, ?_, ?_, ?_, ?_, ?_, ?_, ?_, ?_, ?_, ?_, ?_, ?_⟩
    · -- checkReplyFieldType
      intro pair
      rw [checkReplyFieldType]
      split
      · exact fatalInv_crash _
      · exact fatalInv_ok _
      · split
        all_goals
          first
            | exact fatalInv_withPre _ (ih2 _ _ _ _ _ _)
            | exact fatalInv_crash _
      · exact fatalInv_withPre _ (ih2 _ _ _ _ _ _)
    · -- checkReplyFieldTypeCore
      intro oldT newT cmd fname oldU newU
      rcases oldT with _ | ot
      · exact fatalInv_fatal_reply _ _
      · rcases newT with _ | nt
        · exact fatalInv_fatal_reply _ _
        · cases ot
          case scalar => exact ih3 _ _ _ _ _ _
          case variantT => exact ih3 _ _ _ _ _ _
          case arrayT => exact ih3 _ _ _ _ _ _
          case enumT =>
            cases oldU
            · cases nt <;> exact fatalInv_ok _
            · exact fatalInv_ok _
          case structT =>
            cases nt
            case structT => exact ih6 _ _ _
            all_goals exact fatalInv_ok _
    · -- checkReplyFieldTypeRecursive
      intro ot nt cmd fname oldU newU
      rcases nt with ⟨_,_,_,_,_⟩ | ⟨_,_,_,_,_,nvts,nvst⟩ | ⟨_,_⟩ | ⟨_,_⟩ | ⟨_⟩
      · rcases ot with ⟨_,_,_,_,_⟩ | ⟨_,_,_,_,_,ovts,ovst⟩ | ⟨_,_⟩ | ⟨_,_⟩ | ⟨_⟩
        · apply fatalInv_ite _ (fatalInv_ok _)
          apply fatalInv_ite _ (fatalInv_ok _)
          apply fatalInv_ite _ (fatalInv_ok _)
          exact fatalInv_ok _
        · apply fatalInv_ite _ (fatalInv_ok _)
          apply fatalInv_ite _ (fatalInv_ok _)
          apply fatalInv_ite _ (fatalInv_ok _)
          apply fatalInv_withPre
          exact fatalInv_andThen (ih4 _ _ _ _ _ _) (fatalInv_ok _)
        · exact fatalInv_crash _
        · exact fatalInv_crash _
        · exact fatalInv_crash _
      · rcases ot with ⟨_,_,_,_,_⟩ | ⟨_,_,_,_,_,ovts,ovst⟩ | ⟨_,_⟩ | ⟨_,_⟩ | ⟨_⟩
        · apply fatalInv_ite _ (fatalInv_ok _)
          apply fatalInv_ite _ (fatalInv_ok _)
          apply fatalInv_ite _ (fatalInv_ok _)
          exact fatalInv_ok _
        · apply fatalInv_ite _ (fatalInv_ok _)
          apply fatalInv_ite _ (fatalInv_ok _)
          apply fatalInv_ite _ (fatalInv_ok _)
          apply fatalInv_withPre
          apply fatalInv_andThen (ih4 _ _ _ _ _ _)
          rcases nvst with _ | nvst
          · exact fatalInv_ok _
          · rcases ovst with _ | osd
            · exact fatalInv_ite _ (fatalInv_ok _) (fatalInv_crash _)
            · exact ih6 _ _ _
        · exact fatalInv_crash _
        · exact fatalInv_crash _
        · exact fatalInv_crash _
      · rcases ot with ⟨_,_,_,_,_⟩ | ⟨_,_,_,_,_,ovts,ovst⟩ | ⟨_,_⟩ | ⟨_,_⟩ | ⟨_⟩ <;>
          exact fatalInv_crash _
      · exact fatalInv_ok _
      · exact fatalInv_ok _
    · -- replyVariantArms
      intro nvs ovs cmd fname oldU newU
      rcases nvs with _ | ⟨nv, rest⟩
      · rw [replyVariantArms]; exact fatalInv_ok _
      · rw [replyVariantArms]
        apply fatalInv_andThen _ (ih4 _ _ _ _ _ _)
        split
        · exact ih1 _
        · exact fatalInv_ok _
    · -- checkReplyField
      intro ofd nfd cmd
      rw [checkReplyField]
      exact fatalInv_withPre _ (ih1 _)
    · -- checkReplyFields
      intro osd nsd cmd
      rw [checkReplyFields]
      exact fatalInv_andThen (ih7 _ _ _)
        (fatalInv_newlyAddedReplyChecks _ _ _)
    · -- replyOldFieldsLoop
      intro ofs nsd cmd
      rcases ofs with _ | ⟨ofd, rest⟩
      · rw [replyOldFieldsLoop]; exact fatalInv_ok _
      · rw [replyOldFieldsLoop]
        apply fatalInv_andThen _ (ih7 _ _ _)
        split
        · exact ih5 _ _ _
        · exact fatalInv_ok _
    · -- checkParamOrCommandType
      intro pair isParam
      rw [checkParamOrCommandType]
      split
      · exact fatalInv_crash _
      · exact fatalInv_ok _
      · split
        all_goals
          first
            | exact fatalInv_withPre _ (ih9 _ _ _ _ _ _ _)
            | exact fatalInv_crash _
      · exact fatalInv_withPre _ (ih9 _ _ _ _ _ _ _)
    · -- checkParamOrCommandTypeCore
      intro oldT newT cmd pname oldU newU isParam
      rcases oldT with _ | ot
      · exact fatalInv_fatal_param _ _
      · rcases newT with _ | nt
        · exact fatalInv_fatal_param _ _
        · cases ot
          case scalar => exact ih10 _ _ _ _ _ _ _
          case variantT => exact ih10 _ _ _ _ _ _ _
          case arrayT => exact ih10 _ _ _ _ _ _ _
          case enumT =>
            cases oldU
            · cases nt <;> exact fatalInv_ok _
            · exact fatalInv_ok _
          case structT =>
            cases nt
            case structT => exact ih13 _ _ _ _
            all_goals exact fatalInv_ok _
    · -- checkParamOrCommandTypeRecursive
      intro ot nt cmd pname oldU newU isParam
      rcases nt with ⟨_,_,_,_,_⟩ | ⟨_,_,_,_,_,nvts,nvst⟩ | ⟨_,_⟩ | ⟨_,_⟩ | ⟨_⟩
      · rcases ot with ⟨_,_,_,_,_⟩ | ⟨_,_,_,_,_,ovts,ovst⟩ | ⟨_,_⟩ | ⟨_,_⟩ | ⟨_⟩
        · apply fatalInv_ite _ (fatalInv_ok _)
          apply fatalInv_ite _ (fatalInv_ok _)
          apply fatalInv_ite _ (fatalInv_ok _)
          exact fatalInv_ok _
        · apply fatalInv_ite _ (fatalInv_ok _)
          apply fatalInv_ite _ (fatalInv_ok _)
          apply fatalInv_ite _ (fatalInv_ok _)
          exact fatalInv_ok _
        · exact fatalInv_crash _
        · exact fatalInv_crash _
        · exact fatalInv_crash _
      · rcases ot with ⟨_,_,_,_,_⟩ | ⟨_,_,_,_,_,ovts,ovst⟩ | ⟨_,_⟩ | ⟨_,_⟩ | ⟨_⟩
        · apply fatalInv_ite _ (fatalInv_ok _)
          apply fatalInv_ite _ (fatalInv_ok _)
          apply fatalInv_ite _ (fatalInv_ok _)
          exact fatalInv_ok _
        · apply fatalInv_ite _ (fatalInv_ok _)
          apply fatalInv_ite _ (fatalInv_ok _)
          apply fatalInv_ite _ (fatalInv_ok _)
          apply fatalInv_withPre
          apply fatalInv_andThen (ih11 _ _ _ _ _ _ _)
          rcases ovst with _ | osd
          · exact fatalInv_ok _
          · rcases nvst with _ | nvst
            · exact fatalInv_ok _
            · exact ih13 _ _ _ _
        · exact fatalInv_crash _
        · exact fatalInv_crash _
        · exact fatalInv_crash _
      · rcases ot with ⟨_,_,_,_,_⟩ | ⟨_,_,_,_,_,ovts,ovst⟩ | ⟨_,_⟩ | ⟨_,_⟩ | ⟨_⟩ <;>
          exact fatalInv_crash _
      · exact fatalInv_ok _
      · exact fatalInv_ok _
    · -- paramVariantArms
      intro ovs nvs cmd pname oldU newU isParam
      rcases ovs with _ | ⟨ov, rest⟩
      · rw [paramVariantArms]; exact fatalInv_ok _
      · rw [paramVariantArms]
        apply fatalInv_andThen _ (ih11 _ _ _ _ _ _ _)
        split
        · exact ih8 _ _
        · exact fatalInv_ok _
    · -- checkCommandParamOrTypeStructField
      intro ofd nfd cmd isParam
      rw [checkCommandParamOrTypeStructField]
      exact fatalInv_withPre _ (ih8 _ _)
    · -- checkCommandParamsOrTypeStructFields
      intro osd nsd cmd isParam
      rw [checkCommandParamsOrTypeStructFields]
      exact fatalInv_andThen (ih14 _ _ _ _)
        (fatalInv_newlyAddedParamChecks _ _ _ _)
    · -- paramOldFieldsLoop
      intro ofs nsd cmd isParam
      rcases ofs with _ | ⟨ofd, rest⟩
      · rw [paramOldFieldsLoop]; exact fatalInv_ok _
      · rw [paramOldFieldsLoop]
        apply fatalInv_andThen _ (ih14 _ _ _ _)
        split
        · exact ih12 _ _ _ _
        · exact fatalInv_ok _
    · -- checkNamespace
      intro oc nc
      rw [checkNamespace]
      repeat' split
      all_goals
        first
          | exact fatalInv_ok _
          | exact fatalInv_crash _
          | exact ih8 _ _

theorem fatalInv_checkCommandPair (fuel : Nat) (oc nc : CommandDef) :
    fatalInv (checkCommandPair fuel oc nc) := by
  cases fuel with
  | zero => exact fatalInv_fuelOut _
  | succ fuel =>
    obtain ⟨ih1, _, _, _, _, ih6, _, _, _, _, _, _, ih13, _, ih15⟩ :=
      fatalInv_all fuel
    rw [checkCommandPair]
    apply fatalInv_withPre
    exact fatalInv_andThen (ih13 _ _ _ _)
      (fatalInv_andThen (ih15 _ _)
        (fatalInv_andThen (ih6 _ _ _) (fatalInv_ok _)))

theorem fatalInv_checkGenerationPair :
    ∀ (fuel : Nat) (olds : List CommandDef) (seen : List String)
      (news : List CommandDef),
      fatalInv (checkGenerationPair fuel olds seen news) := by
  intro fuel
  induction fuel with
  | zero => intros; exact fatalInv_fuelOut _
  | succ fuel ih =>
    intro olds seen news
    rcases olds with _ | ⟨oc, rest⟩
    · rw [checkGenerationPair]; exact fatalInv_ok _
    · rw [checkGenerationPair]
      split
      · exact ih _ _ _
      · split
        · exact fatalInv_withPre _ (ih _ _ _)
        · split
          · exact fatalInv_withPre _ (ih _ _ _)
          · apply fatalInv_andThen _ (ih _ _ _)
            split
            · exact fatalInv_checkCommandPair _ _ _
            · exact fatalInv_ok _


/-- C6 counterexample -/
theorem c6_unresolved_fatal_counterexample :
    (Option.isNone (none : Option TypeKind)) = true
    ∧ checkReplyFieldType 5
        ⟨⟨none, false⟩,
         ⟨some (.arrayT "arr" (some (.scalar "string" ["string"] none none none))),
          false⟩, "c", "f"⟩ = .crash []
    ∧ (CheckResult.crash ([] : List Err)).errors = [] := by
  refine ⟨rfl, by decide, rfl⟩

/-- C6 amended -/
theorem c6_unresolved_fatal_amended
    (fuel : Nat) (pair : FieldPair) (isParam : Bool)
    (olds : List CommandDef) (seen : List String) (news : List CommandDef) :
    ((pair.oldf.ftype = none ∨ pair.newf.ftype = none) →
      isArrayO pair.oldf.ftype = false → isArrayO pair.newf.ftype = false →
      (checkReplyFieldType (fuel+2) pair =
          .fatal [⟨.replyFieldTypeInvalid, pair.cmdName, some pair.fieldName⟩]
       ∧ checkParamOrCommandType (fuel+2) pair isParam =
          .fatal [⟨.commandOrParamTypeInvalid, pair.cmdName,
                   some pair.fieldName⟩]))
    ∧ (∀ es, checkGenerationPair fuel olds seen news = .fatal es →
        ∃ e, es.getLast? = some e ∧
          (e.kind = .replyFieldTypeInvalid
           ∨ e.kind = .commandOrParamTypeInvalid)) := by
  constructor
  · intro hnone h1 h2
    constructor
    · rw [checkReplyFieldType_nonarray (fuel+1) pair h1 h2]
      rcases ho : pair.oldf.ftype with _ | ot
      · rfl
      · rcases hnone with h | h
        · rw [ho] at h; cases h
        · rw [h]; rfl
    · rw [checkParamOrCommandType_nonarray (fuel+1) pair isParam h1 h2]
      rcases ho : pair.oldf.ftype with _ | ot
      · rfl
      · rcases hnone with h | h
        · rw [ho] at h; cases h
        · rw [h]; rfl
  · exact fatalInv_checkGenerationPair fuel olds seen news

/-- Concrete witness for `c6_unresolved_fatal_amended`. -/
theorem c6_unresolved_fatal_amended_witness :
    ((some (TypeKind.scalar "string" ["string"] none none none)
        : Option TypeKind) = none ∨ (none : Option TypeKind) = none)
    ∧ (checkReplyFieldType 2
        ⟨⟨some (.scalar "string" ["string"] none none none), false⟩,
         ⟨none, false⟩, "c", "f"⟩
        = .fatal [⟨.replyFieldTypeInvalid, "c", some "f"⟩]
      ∧ checkParamOrCommandType 2
        ⟨⟨some (.scalar "string" ["string"] none none none), false⟩,
         ⟨none, false⟩, "c", "f"⟩ true
        = .fatal [⟨.commandOrParamTypeInvalid, "c", some "f"⟩]) :=
  ⟨Or.inr rfl,
   (c6_unresolved_fatal_amended 0
     ⟨⟨some (.scalar "string" ["string"] none none none), false⟩,
      ⟨none, false⟩, "c", "f"⟩ true [] [] []).1
     (Or.inr rfl) (by decide) (by decide)⟩


end IdlCompat

namespace IdlCompat

/-- Error kinds that the `any`-gate of the type comparison may record even
for an unstable old field: the two any-introduction/removal errors, the
disallowed-`any` error, and the cpp-type inequality check (which the source
performs without consulting the unstable flag). -/
def anyRelatedKind : ErrKind → Bool
  | .oldReplyFieldBsonAny => true
  | .newReplyFieldBsonAny => true
  | .replyFieldBsonAnyNotAllowed => true
  | .replyFieldCppTypeNotEqual => true
  | .oldCommandOrParamBsonAny => true
  | .newCommandOrParamBsonAny => true
  | .commandOrParamBsonAnyNotAllowed => true
  | .commandOrParamCppTypeNotEqual => true
  | _ => false

/-- A resolved type that contains no struct components and no unresolved
pieces: scalars, enums, arrays of such types, and variants whose arms are
such types and which carry no struct arm. -/
inductive PlainT : TypeKind → Prop where
  | scalar (n : String) (bs : List String) (c s d : Option String) :
      PlainT (.scalar n bs c s d)
  | enum (n : String) (vs : List String) : PlainT (.enumT n vs)
  | array (n : String) (t : TypeKind) (h : PlainT t) :
      PlainT (.arrayT n (some t))
  | variant (n : String) (bs : List String) (c s d : Option String)
      (vts : List TypeKind) (h : ∀ t ∈ vts, PlainT t) :
      PlainT (.variantT n bs c s d vts none)

/-- All errors of an outcome are `any`-related. -/
def ErrsOk (r : CheckResult) : Prop :=
  ∀ e ∈ r.errors, anyRelatedKind e.kind = true

def allAnyL (es : List Err) : Prop :=
  ∀ e ∈ es, anyRelatedKind e.kind = true

theorem allAnyL_nil : allAnyL [] := by intro e he; cases he

theorem allAnyL_single (e₀ : Err) (h : anyRelatedKind e₀.kind = true) :
    allAnyL [e₀] := by
  intro e he
  rw [List.mem_singleton] at he
  subst he
  exact h

theorem allAnyL_append {a b : List Err} (h1 : allAnyL a) (h2 : allAnyL b) :
    allAnyL (a ++ b) := by
  intro e he
  rcases List.mem_append.mp he with h | h
  · exact h1 e h
  · exact h2 e h

theorem allAnyL_ite (c : Prop) [Decidable c] {a b : List Err}
    (h1 : allAnyL a) (h2 : allAnyL b) : allAnyL (if c then a else b) := by
  by_cases h : c
  · rwa [if_pos h]
  · rwa [if_neg h]

theorem errsOk_ok {es : List Err} (h : allAnyL es) : ErrsOk (.ok es) := h

theorem errsOk_ok_nil : ErrsOk (.ok []) := by intro e he; cases he

theorem errsOk_crash_nil : ErrsOk (.crash []) := by intro e he; cases he

theorem errsOk_fuelOut_nil : ErrsOk (.fuelOut []) := by intro e he; cases he

theorem errsOk_ite (c : Prop) [Decidable c] {a b : CheckResult}
    (h1 : ErrsOk a) (h2 : ErrsOk b) : ErrsOk (if c then a else b) := by
  by_cases h : c
  · rwa [if_pos h]
  · rwa [if_neg h]

theorem errsOk_withPre {es : List Err} {r : CheckResult}
    (h1 : allAnyL es) (h2 : ErrsOk r) : ErrsOk (CheckResult.withPre es r) := by
  intro e he
  rw [errors_withPre] at he
  rcases List.mem_append.mp he with h | h
  · exact h1 e h
  · exact h2 e h

theorem errsOk_andThen {r k : CheckResult} (h1 : ErrsOk r) (h2 : ErrsOk k) :
    ErrsOk (CheckResult.andThen r k) := by
  cases r with
  | ok es => exact errsOk_withPre h1 h2
  | fatal es => exact h1
  | crash es => exact h1
  | fuelOut es => exact h1


theorem plainUnstable_all : ∀ fuel : Nat,
    (∀ ot nt cmd fn nU, PlainT ot → PlainT nt →
      ErrsOk (checkReplyFieldType fuel ⟨⟨some ot, true⟩, ⟨some nt, nU⟩, cmd, fn⟩))
    ∧ (∀ ot nt cmd fn nU, PlainT ot → PlainT nt →
      ErrsOk (checkReplyFieldTypeCore fuel (some ot) (some nt) cmd fn true nU))
    ∧ (∀ ot nt cmd fn nU, PlainT ot → PlainT nt →
      ErrsOk (checkReplyFieldTypeRecursive fuel ot nt cmd fn true nU))
    ∧ (∀ nvs ovs cmd fn nU, (∀ t ∈ nvs, PlainT t) → (∀ t ∈ ovs, PlainT t) →
      ErrsOk (replyVariantArms fuel nvs ovs cmd fn true nU))
    ∧ (∀ ot nt cmd fn nU isP, PlainT ot → PlainT nt →
      ErrsOk (checkParamOrCommandType fuel
        ⟨⟨some ot, true⟩, ⟨some nt, nU⟩, cmd, fn⟩ isP))
    ∧ (∀ ot nt cmd fn nU isP, PlainT ot → PlainT nt →
      ErrsOk (checkParamOrCommandTypeCore fuel (some ot) (some nt) cmd fn true
        nU isP))
    ∧ (∀ ot nt cmd fn nU isP, PlainT ot → PlainT nt →
      ErrsOk (checkParamOrCommandTypeRecursive fuel ot nt cmd fn true nU isP))
    ∧ (∀ ovs nvs cmd fn nU isP, (∀ t ∈ ovs, PlainT t) → (∀ t ∈ nvs, PlainT t) →
      ErrsOk (paramVariantArms fuel ovs nvs cmd fn true nU isP)) := by
  intro fuel
  induction fuel with
  | zero =>
    refine ⟨?_, ?_, ?_, ?_, ?_, ?_, ?_, ?_⟩ <;> intros <;>
      exact errsOk_fuelOut_nil
  | succ fuel ih =>
    obtain ⟨ihR1, ihR2, ihR3, ihR4, ihP1, ihP2, ihP3, ihP4⟩ := ih
    refine ⟨?_, ?_, ?_, ?_, ?_, ?_, ?_, ?_⟩
    · -- checkReplyFieldType
      intro ot nt cmd fn nU hpo hpn
      cases hpo <;> cases hpn <;>
        first
          | exact errsOk_crash_nil
          | exact errsOk_withPre allAnyL_nil
              (ihR2 _ _ _ _ _ (by constructor <;> assumption)
                (by constructor <;> assumption))
          | exact errsOk_withPre allAnyL_nil
              (ihR2 _ _ _ _ _ ‹PlainT _› ‹PlainT _›)
    · -- checkReplyFieldTypeCore
      intro ot nt cmd fn nU hpo hpn
      cases hpo with
      | scalar n bs c s d => exact ihR3 _ _ _ _ _ (PlainT.scalar _ _ _ _ _) hpn
      | enum n vs => exact errsOk_ok_nil
      | array n t h => exact ihR3 _ _ _ _ _ (PlainT.array _ _ h) hpn
      | variant n bs c s d vts h =>
        exact ihR3 _ _ _ _ _ (PlainT.variant _ _ _ _ _ _ h) hpn
    · -- checkReplyFieldTypeRecursive
      intro ot nt cmd fn nU hpo hpn
      cases hpn with
      | enum n vs => exact errsOk_ok_nil
      | array n t h =>
        cases hpo <;> exact errsOk_crash_nil
      | scalar n1 b1 c1 s1 d1 =>
        cases hpo with
        | enum n vs => exact errsOk_crash_nil
        | array n t h => exact errsOk_crash_nil
        | scalar n bs c s d =>
          refine errsOk_ite _ (errsOk_ok (allAnyL_single
            ⟨.oldReplyFieldBsonAny, cmd, some fn⟩ rfl)) ?_
          refine errsOk_ite _ (errsOk_ok (allAnyL_single
            ⟨.newReplyFieldBsonAny, cmd, some fn⟩ rfl)) ?_
          refine errsOk_ite _ (errsOk_ok (allAnyL_single
            ⟨.replyFieldBsonAnyNotAllowed, cmd, some fn⟩ rfl)) ?_
          refine errsOk_ok (allAnyL_append ?_ allAnyL_nil)
          refine allAnyL_ite _ ?_ allAnyL_nil
          exact allAnyL_append
            (allAnyL_append
              (allAnyL_ite _ (allAnyL_single ⟨.replyFieldCppTypeNotEqual, cmd, some fn⟩ rfl)
                allAnyL_nil)
              allAnyL_nil)
            allAnyL_nil
        | variant n bs c s d vts harms =>
          refine errsOk_ite _ (errsOk_ok (allAnyL_single
            ⟨.oldReplyFieldBsonAny, cmd, some fn⟩ rfl)) ?_
          refine errsOk_ite _ (errsOk_ok (allAnyL_single
            ⟨.newReplyFieldBsonAny, cmd, some fn⟩ rfl)) ?_
          refine errsOk_ite _ (errsOk_ok (allAnyL_single
            ⟨.replyFieldBsonAnyNotAllowed, cmd, some fn⟩ rfl)) ?_
          refine errsOk_withPre ?_ ?_
          · refine allAnyL_ite _ ?_ allAnyL_nil
            exact allAnyL_append
              (allAnyL_append
                (allAnyL_ite _
                  (allAnyL_single ⟨.replyFieldCppTypeNotEqual, cmd, some fn⟩ rfl)
                  allAnyL_nil)
                allAnyL_nil)
              allAnyL_nil
          · refine errsOk_andThen (ihR4 _ _ _ _ _ ?_ harms) errsOk_ok_nil
            intro t ht
            rw [List.mem_singleton] at ht
            subst ht
            exact PlainT.scalar _ _ _ _ _
      | variant n1 b1 c1 s1 d1 nvts harms2 =>
        cases hpo with
        | enum n vs => exact errsOk_crash_nil
        | array n t h => exact errsOk_crash_nil
        | scalar n bs c s d =>
          refine errsOk_ite _ (errsOk_ok (allAnyL_single
            ⟨.oldReplyFieldBsonAny, cmd, some fn⟩ rfl)) ?_
          refine errsOk_ite _ (errsOk_ok (allAnyL_single
            ⟨.newReplyFieldBsonAny, cmd, some fn⟩ rfl)) ?_
          refine errsOk_ite _ (errsOk_ok (allAnyL_single
            ⟨.replyFieldBsonAnyNotAllowed, cmd, some fn⟩ rfl)) ?_
          refine errsOk_ok (allAnyL_append ?_ allAnyL_nil)
          refine allAnyL_ite _ ?_ allAnyL_nil
          exact allAnyL_append
            (allAnyL_append
              (allAnyL_ite _ (allAnyL_single ⟨.replyFieldCppTypeNotEqual, cmd, some fn⟩ rfl)
                allAnyL_nil)
              allAnyL_nil)
            allAnyL_nil
        | variant n bs c s d vts harms1 =>
          refine errsOk_ite _ (errsOk_ok (allAnyL_single
            ⟨.oldReplyFieldBsonAny, cmd, some fn⟩ rfl)) ?_
          refine errsOk_ite _ (errsOk_ok (allAnyL_single
            ⟨.newReplyFieldBsonAny, cmd, some fn⟩ rfl)) ?_
          refine errsOk_ite _ (errsOk_ok (allAnyL_single
            ⟨.replyFieldBsonAnyNotAllowed, cmd, some fn⟩ rfl)) ?_
          refine errsOk_withPre ?_ ?_
          · refine allAnyL_ite _ ?_ allAnyL_nil
            exact allAnyL_append
              (allAnyL_append
                (allAnyL_ite _
                  (allAnyL_single ⟨.replyFieldCppTypeNotEqual, cmd, some fn⟩ rfl)
                  allAnyL_nil)
                allAnyL_nil)
              allAnyL_nil
          · exact errsOk_andThen (ihR4 _ _ _ _ _ harms2 harms1) errsOk_ok_nil
    · -- replyVariantArms
      intro nvs ovs cmd fn nU hnvs hovs
      rcases nvs with _ | ⟨nv, rest⟩
      · exact errsOk_ok_nil
      · refine errsOk_andThen ?_
          (ihR4 _ _ _ _ _ (fun t ht => hnvs t (List.mem_cons_of_mem _ ht)) hovs)
        rcases h : ovs.find? (fun ov => ov.tname == nv.tname) with _ | ov
        · rw [h]
          exact errsOk_ok_nil
        · rw [h]
          exact ihR1 _ _ _ _ _ (hovs ov (List.mem_of_find?_eq_some h))
            (hnvs nv (List.mem_cons_self _ _))
    · -- checkParamOrCommandType
      intro ot nt cmd fn nU isP hpo hpn
      cases hpo <;> cases hpn <;>
        first
          | exact errsOk_crash_nil
          | exact errsOk_withPre allAnyL_nil
              (ihP2 _ _ _ _ _ _ (by constructor <;> assumption)
                (by constructor <;> assumption))
          | exact errsOk_withPre allAnyL_nil
              (ihP2 _ _ _ _ _ _ ‹PlainT _› ‹PlainT _›)
    · -- checkParamOrCommandTypeCore
      intro ot nt cmd fn nU isP hpo hpn
      cases hpo with
      | scalar n bs c s d =>
        exact ihP3 _ _ _ _ _ _ (PlainT.scalar _ _ _ _ _) hpn
      | enum n vs => exact errsOk_ok_nil
      | array n t h => exact ihP3 _ _ _ _ _ _ (PlainT.array _ _ h) hpn
      | variant n bs c s d vts h =>
        exact ihP3 _ _ _ _ _ _ (PlainT.variant _ _ _ _ _ _ h) hpn
    · -- checkParamOrCommandTypeRecursive
      intro ot nt cmd fn nU isP hpo hpn
      cases hpn with
      | enum n vs => exact errsOk_ok_nil
      | array n t h =>
        cases hpo <;> exact errsOk_crash_nil
      | scalar n1 b1 c1 s1 d1 =>
        cases hpo with
        | enum n vs => exact errsOk_crash_nil
        | array n t h => exact errsOk_crash_nil
        | scalar n bs c s d =>
          refine errsOk_ite _ (errsOk_ok (allAnyL_single
            ⟨.oldCommandOrParamBsonAny, cmd, some fn⟩ rfl)) ?_
          refine errsOk_ite _ (errsOk_ok (allAnyL_single
            ⟨.newCommandOrParamBsonAny, cmd, some fn⟩ rfl)) ?_
          refine errsOk_ite _ (errsOk_ok (allAnyL_single
            ⟨.commandOrParamBsonAnyNotAllowed, cmd, some fn⟩ rfl)) ?_
          refine errsOk_ok (allAnyL_append ?_ allAnyL_nil)
          refine allAnyL_ite _ ?_ allAnyL_nil
          exact allAnyL_append
            (allAnyL_append
              (allAnyL_ite _ (allAnyL_single ⟨.commandOrParamCppTypeNotEqual, cmd, some fn⟩ rfl)
                allAnyL_nil)
              allAnyL_nil)
            allAnyL_nil
        | variant n bs c s d vts harms =>
          refine errsOk_ite _ (errsOk_ok (allAnyL_single
            ⟨.oldCommandOrParamBsonAny, cmd, some fn⟩ rfl)) ?_
          refine errsOk_ite _ (errsOk_ok (allAnyL_single
            ⟨.newCommandOrParamBsonAny, cmd, some fn⟩ rfl)) ?_
          refine errsOk_ite _ (errsOk_ok (allAnyL_single
            ⟨.commandOrParamBsonAnyNotAllowed, cmd, some fn⟩ rfl)) ?_
          refine errsOk_ok (allAnyL_append ?_ allAnyL_nil)
          refine allAnyL_ite _ ?_ allAnyL_nil
          exact allAnyL_append
            (allAnyL_append
              (allAnyL_ite _ (allAnyL_single ⟨.commandOrParamCppTypeNotEqual, cmd, some fn⟩ rfl)
                allAnyL_nil)
              allAnyL_nil)
            allAnyL_nil
      | variant n1 b1 c1 s1 d1 nvts harms2 =>
        cases hpo with
        | enum n vs => exact errsOk_crash_nil
        | array n t h => exact errsOk_crash_nil
        | scalar n bs c s d =>
          refine errsOk_ite _ (errsOk_ok (allAnyL_single
            ⟨.oldCommandOrParamBsonAny, cmd, some fn⟩ rfl)) ?_
          refine errsOk_ite _ (errsOk_ok (allAnyL_single
            ⟨.newCommandOrParamBsonAny, cmd, some fn⟩ rfl)) ?_
          refine errsOk_ite _ (errsOk_ok (allAnyL_single
            ⟨.commandOrParamBsonAnyNotAllowed, cmd, some fn⟩ rfl)) ?_
          refine errsOk_ok (allAnyL_append ?_ allAnyL_nil)
          refine allAnyL_ite _ ?_ allAnyL_nil
          exact allAnyL_append
            (allAnyL_append
              (allAnyL_ite _ (allAnyL_single ⟨.commandOrParamCppTypeNotEqual, cmd, some fn⟩ rfl)
                allAnyL_nil)
              allAnyL_nil)
            allAnyL_nil
        | variant n bs c s d vts harms1 =>
          refine errsOk_ite _ (errsOk_ok (allAnyL_single
            ⟨.oldCommandOrParamBsonAny, cmd, some fn⟩ rfl)) ?_
          refine errsOk_ite _ (errsOk_ok (allAnyL_single
            ⟨.newCommandOrParamBsonAny, cmd, some fn⟩ rfl)) ?_
          refine errsOk_ite _ (errsOk_ok (allAnyL_single
            ⟨.commandOrParamBsonAnyNotAllowed, cmd, some fn⟩ rfl)) ?_
          refine errsOk_withPre ?_ ?_
          · refine allAnyL_ite _ ?_ allAnyL_nil
            exact allAnyL_append
              (allAnyL_append
                (allAnyL_ite _
                  (allAnyL_single ⟨.commandOrParamCppTypeNotEqual, cmd, some fn⟩ rfl)
                  allAnyL_nil)
                allAnyL_nil)
              allAnyL_nil
          · exact errsOk_andThen (ihP4 _ _ _ _ _ _ harms1 harms2) errsOk_ok_nil
    · -- paramVariantArms
      intro ovs nvs cmd fn nU isP hovs hnvs
      rcases ovs with _ | ⟨ov, rest⟩
      · exact errsOk_ok_nil
      · refine errsOk_andThen ?_
          (ihP4 _ _ _ _ _ _ (fun t ht => hovs t (List.mem_cons_of_mem _ ht))
            hnvs)
        rcases h : nvs.find? (fun nv => ov.tname == nv.tname) with _ | nv
        · rw [h]
          exact errsOk_ok_nil
        · rw [h]
          exact ihP1 _ _ _ _ _ _ (hovs ov (List.mem_cons_self _ _))
            (hnvs nv (List.mem_of_find?_eq_some h))


/-- C2 counterexample -/
theorem c2_unstable_only_any_errors_counterexample :
    checkReplyFieldType 5
      ⟨⟨some (.scalar "anyT" ["any"] (some "A") none none), true⟩,
       ⟨some (.scalar "anyT" ["any"] (some "B") none none), true⟩,
       "commandAllowedAnyTypes", "anyTypeField"⟩
      = .ok [⟨.replyFieldCppTypeNotEqual, "commandAllowedAnyTypes",
              some "anyTypeField"⟩]
    ∧ (ErrKind.replyFieldCppTypeNotEqual ≠ .oldReplyFieldBsonAny
       ∧ ErrKind.replyFieldCppTypeNotEqual ≠ .newReplyFieldBsonAny
       ∧ ErrKind.replyFieldCppTypeNotEqual ≠ .replyFieldBsonAnyNotAllowed) := by
  refine ⟨by decide, by decide, by decide, by decide⟩

/-- C2 amended -/
theorem c2_unstable_only_any_errors_amended
    (fuel : Nat) (ot nt : TypeKind) (cmd fn : String) (nU isParam : Bool)
    (hpo : PlainT ot) (hpn : PlainT nt) :
    (∀ e ∈ (checkReplyFieldType fuel
        ⟨⟨some ot, true⟩, ⟨some nt, nU⟩, cmd, fn⟩).errors,
      anyRelatedKind e.kind = true)
    ∧ (∀ e ∈ (checkParamOrCommandType fuel
        ⟨⟨some ot, true⟩, ⟨some nt, nU⟩, cmd, fn⟩ isParam).errors,
      anyRelatedKind e.kind = true) :=
  ⟨(plainUnstable_all fuel).1 ot nt cmd fn nU hpo hpn,
   (plainUnstable_all fuel).2.2.2.2.1 ot nt cmd fn nU isParam hpo hpn⟩

/-- Concrete witness for `c2_unstable_only_any_errors_amended`. -/
theorem c2_unstable_only_any_errors_amended_witness :
    PlainT (.scalar "string" ["string"] none none none)
    ∧ PlainT (.scalar "int" ["int"] none none none)
    ∧ ((∀ e ∈ (checkReplyFieldType 3
          ⟨⟨some (.scalar "string" ["string"] none none none), true⟩,
           ⟨some (.scalar "int" ["int"] none none none), true⟩,
           "c", "f"⟩).errors,
        anyRelatedKind e.kind = true)
      ∧ (∀ e ∈ (checkParamOrCommandType 3
          ⟨⟨some (.scalar "string" ["string"] none none none), true⟩,
           ⟨some (.scalar "int" ["int"] none none none), true⟩,
           "c", "f"⟩ true).errors,
        anyRelatedKind e.kind = true)) :=
  ⟨PlainT.scalar _ _ _ _ _, PlainT.scalar _ _ _ _ _,
   c2_unstable_only_any_errors_amended 3
     (.scalar "string" ["string"] none none none)
     (.scalar "int" ["int"] none none none) "c" "f" true true
     (PlainT.scalar _ _ _ _ _) (PlainT.scalar _ _ _ _ _)⟩


end IdlCompat

namespace IdlCompat

/-- `a :: l` has no `BEq`-duplicates. -/
def nodupB {α : Type} [BEq α] : List α → Bool
  | [] => true
  | x :: xs => !xs.contains x && nodupB xs

/-- Which allowlist key a type comparison synthesizes: reply fields use
`cmd-reply-field`, parameters use `cmd-param-field`, the command type (and
the namespace type) use the bare command name. -/
inductive KeyCtx where
  | replyK
  | paramK (isP : Bool)
deriving DecidableEq, Repr

/-- The synthesized allowlist key for a field in a given context. -/
def keyFor : KeyCtx → String → String → String
  | .replyK, cmd, fname => cmd ++ "-reply-" ++ fname
  | .paramK isP, cmd, fname => if isP then cmd ++ "-param-" ++ fname else cmd

mutual

/-- The self-comparison well-formedness of a resolved type: any `"any"`
bson serialization type is allowlisted under the synthesized key, variant
arm names are unique, array element types are resolved and not themselves
arrays, and nested structs are well-formed. -/
def wfT (ctx : KeyCtx) (cmd fname : String) : TypeKind → Bool
  | .scalar _ bs _ _ _ =>
    !bs.contains "any" || allowAnyTypeList.contains (keyFor ctx cmd fname)
  | .variantT _ bs _ _ _ vts vst =>
    (!bs.contains "any" || allowAnyTypeList.contains (keyFor ctx cmd fname))
      && nodupB (vts.map TypeKind.tname) && wfTList ctx cmd fname vts
      && wfOStruct ctx cmd vst
  | .arrayT _ et =>
    match et with
    | some e => !isArrayT e && wfT ctx cmd fname e
    | none => false
  | .enumT _ _ => true
  | .structT sd => wfStructW ctx cmd sd

/-- All types of a variant-arm list are well-formed. -/
def wfTList (ctx : KeyCtx) (cmd fname : String) : List TypeKind → Bool
  | [] => true
  | t :: ts => wfT ctx cmd fname t && wfTList ctx cmd fname ts

/-- Well-formedness of an optional variant struct slot. -/
def wfOStruct (ctx : KeyCtx) (cmd : String) : Option StructDef → Bool
  | some sd => wfStructW ctx cmd sd
  | none => true

/-- Struct well-formedness: unique field names and well-formed fields. -/
def wfStructW (ctx : KeyCtx) (cmd : String) : StructDef → Bool
  | .mk _ fs => nodupB (fs.map FieldDef.fname) && wfFieldList ctx cmd fs

/-- All fields of a list are well-formed. -/
def wfFieldList (ctx : KeyCtx) (cmd : String) : List FieldDef → Bool
  | [] => true
  | f :: fs => wfFieldW ctx cmd f && wfFieldList ctx cmd fs

/-- Field well-formedness: its type is resolved and well-formed under the
field's own name. -/
def wfFieldW (ctx : KeyCtx) (cmd : String) : FieldDef → Bool
  | .mk fn rt _ _ _ _ =>
    match rt with
    | some t => wfT ctx cmd fn t
    | none => false

end


/-- Namespace well-formedness: a `type`-kind namespace carries a resolved,
well-formed type (checked under the bare command name, `isParam = false`). -/
def wfNs (c : CommandDef) : Bool :=
  match c.namespaceKind, c.namespaceType with
  | .typeNS, some t => wfT (.paramK false) c.name "" t
  | .typeNS, none => false
  | _, _ => true

/-- Command well-formedness for self-comparison: a valid api version,
unique parameter names, well-formed parameters, a well-formed reply struct
and a well-formed namespace. -/
def wfCmd (c : CommandDef) : Bool :=
  (c.apiVersion == "" || c.apiVersion == "1")
    && nodupB (c.parameters.map FieldDef.fname)
    && wfFieldList (.paramK true) c.name c.parameters
    && wfStructW .replyK c.name c.replyType
    && wfNs c

/-- Generation well-formedness: unique command names, every command
well-formed. -/
def wfGeneration (cmds : List CommandDef) : Bool :=
  nodupB (cmds.map CommandDef.name) && cmds.all wfCmd

/-- A self-comparison outcome: no errors recorded, whether the traversal
finished or ran out of fuel. -/
def SelfOk (r : CheckResult) : Prop := r = .ok [] ∨ r = .fuelOut []

theorem selfOk_okR : SelfOk (.ok []) := Or.inl rfl

theorem selfOk_fuelOutR : SelfOk (.fuelOut []) := Or.inr rfl

theorem selfOk_withPre (es : List Err) (h : es = []) {r : CheckResult}
    (hr : SelfOk r) : SelfOk (CheckResult.withPre es r) := by
  rw [h, withPre_nil]
  exact hr

theorem selfOk_andThen {r k : CheckResult} (h1 : SelfOk r) (h2 : SelfOk k) :
    SelfOk (CheckResult.andThen r k) := by
  rcases h1 with h1 | h1 <;> rw [h1]
  · rw [CheckResult.andThen, withPre_nil]
    exact h2
  · exact Or.inr rfl

theorem selfOk_ok_of_nil {es : List Err} (h : es = []) : SelfOk (.ok es) :=
  Or.inl (by rw [h])

theorem selfOk_ite_neg (c : Bool) {a b : CheckResult} (h : c = false)
    (hb : SelfOk b) : SelfOk (if c then a else b) := by
  rw [h]
  exact hb

theorem selfOk_condB (c : Bool) {a b : CheckResult} (h1 : c = true → SelfOk a)
    (h2 : c = false → SelfOk b) : SelfOk (if c then a else b) := by
  rcases Bool.eq_false_or_eq_true c with hc | hc <;> rw [hc]
  · exact h1 hc
  · exact h2 hc

theorem subsetB_self {α : Type} [BEq α] [LawfulBEq α] (l : List α) :
    subsetB l l = true := by
  rw [subsetB, List.all_eq_true]
  intro x hx
  simpa using hx

theorem find_self_of_nodupB {α : Type} (f : α → String) (l : List α) (x : α)
    (hx : x ∈ l) (hn : nodupB (l.map f) = true) :
    l.find? (fun y => f y == f x) = some x := by
  induction l with
  | nil => cases hx
  | cons a tl ih =>
    rw [List.map_cons, nodupB, Bool.and_eq_true, Bool.not_eq_true'] at hn
    rcases List.mem_cons.mp hx with rfl | hmem
    · exact List.find?_cons_of_pos _ (by simp)
    · have hne : (f a == f x) = false := by
        rcases hfa : f a == f x with _ | _
        · rfl
        · exfalso
          have hmm : f x ∈ tl.map f := List.mem_map_of_mem f hmem
          rw [← eq_of_beq hfa] at hmm
          have hc : (List.map f tl).contains (f a) = true := by
            simpa using hmm
          rw [hn.1] at hc
          exact Bool.noConfusion hc
      rw [List.find?_cons_of_neg _ (by simp [hne]), ih hmem hn.2]

theorem find_self_of_nodupB' {α : Type} (f : α → String) (l : List α) (x : α)
    (hx : x ∈ l) (hn : nodupB (l.map f) = true) :
    l.find? (fun y => f x == f y) = some x := by
  induction l with
  | nil => cases hx
  | cons a tl ih =>
    rw [List.map_cons, nodupB, Bool.and_eq_true, Bool.not_eq_true'] at hn
    rcases List.mem_cons.mp hx with rfl | hmem
    · exact List.find?_cons_of_pos _ (by simp)
    · have hne : (f x == f a) = false := by
        rcases hfa : f x == f a with _ | _
        · rfl
        · exfalso
          have hmm : f x ∈ tl.map f := List.mem_map_of_mem f hmem
          rw [eq_of_beq hfa] at hmm
          have hc : (List.map f tl).contains (f a) = true := by
            simpa using hmm
          rw [hn.1] at hc
          exact Bool.noConfusion hc
      rw [List.find?_cons_of_neg _ (by simp [hne]), ih hmem hn.2]

theorem wfTList_mem {ctx : KeyCtx} {cmd fname : String} {l : List TypeKind}
    {t : TypeKind} (h : wfTList ctx cmd fname l = true) (ht : t ∈ l) :
    wfT ctx cmd fname t = true := by
  induction l with
  | nil => cases ht
  | cons a tl ih =>
    rw [wfTList, Bool.and_eq_true] at h
    rcases List.mem_cons.mp ht with rfl | hmem
    · exact h.1
    · exact ih h.2 hmem

theorem wfFieldList_mem {ctx : KeyCtx} {cmd : String} {l : List FieldDef}
    {f : FieldDef} (h : wfFieldList ctx cmd l = true) (hf : f ∈ l) :
    wfFieldW ctx cmd f = true := by
  induction l with
  | nil => cases hf
  | cons a tl ih =>
    rw [wfFieldList, Bool.and_eq_true] at h
    rcases List.mem_cons.mp hf with rfl | hmem
    · exact h.1
    · exact ih h.2 hmem


theorem newlyAddedReplyChecks_self (cmd : String) (olds : List FieldDef) :
    ∀ news : List FieldDef, (∀ nf ∈ news, nf ∈ olds) →
      newlyAddedReplyChecks cmd olds news = .ok []
  | [], _ => rfl
  | nf :: rest, h => by
    have hnf : nf ∈ olds := h nf (List.mem_cons_self _ _)
    have hall : olds.all (fun ofd => ofd.fname != nf.fname) = false := by
      rcases hb : olds.all (fun ofd => ofd.fname != nf.fname) with _ | _
      · rfl
      · exfalso
        have hx := List.all_eq_true.mp hb nf hnf
        simp at hx
    rw [newlyAddedReplyChecks, hall]
    rw [newlyAddedReplyChecks_self cmd olds rest
      (fun x hx => h x (List.mem_cons_of_mem _ hx))]
    rfl

theorem newlyAddedParamChecks_self (cmd : String) (olds : List FieldDef)
    (isParam : Bool) :
    ∀ news : List FieldDef, (∀ nf ∈ news, nf ∈ olds) →
      newlyAddedParamChecks cmd olds isParam news = .ok []
  | [], _ => rfl
  | nf :: rest, h => by
    have hnf : nf ∈ olds := h nf (List.mem_cons_self _ _)
    have hall : olds.all (fun ofd => ofd.fname != nf.fname) = false := by
      rcases hb : olds.all (fun ofd => ofd.fname != nf.fname) with _ | _
      · rfl
      · exfalso
        have hx := List.all_eq_true.mp hb nf hnf
        simp at hx
    rw [newlyAddedParamChecks, hall]
    rw [newlyAddedParamChecks_self cmd olds isParam rest
      (fun x hx => h x (List.mem_cons_of_mem _ hx))]
    rfl

theorem privMatchLoop_self (cmd : String) :
    ∀ l : List Privilege, privMatchLoop cmd l l = []
  | [] => rfl
  | np :: rest => by
    rw [privMatchLoop]
    have hp : (np.resourcePattern == np.resourcePattern &&
        subsetB np.actionType np.actionType) = true := by
      simp [subsetB_self]
    rw [List.findIdx?_cons, hp]
    simp only [if_true]
    rw [List.eraseIdx_cons_zero]
    exact privMatchLoop_self cmd rest

theorem checkSecurityAccessChecks_self (ac : Option AccessChecksDef)
    (cmd apiV : String) : checkSecurityAccessChecks ac ac cmd apiV = [] := by
  rcases ac with _ | ⟨sa, ca⟩
  · rfl
  · rcases sa with _ | ⟨ce, pe⟩
    · rcases ca with _ | cl
      · simp [checkSecurityAccessChecks, bne_self_eq_false]
      · simp [checkSecurityAccessChecks, bne_self_eq_false, subsetB_self,
          privMatchLoop_self, Nat.lt_irrefl]
    · rcases pe with _ | ⟨rp, acts⟩ <;> rcases ca with _ | cl <;>
        simp [checkSecurityAccessChecks, bne_self_eq_false, subsetB_self,
          privMatchLoop_self, Nat.lt_irrefl]


theorem selfOk_all : ∀ fuel : Nat,
    (∀ t u cmd fname, wfT .replyK cmd fname t = true →
      SelfOk (checkReplyFieldType fuel ⟨⟨some t, u⟩, ⟨some t, u⟩, cmd, fname⟩))
    ∧ (∀ t u cmd fname, wfT .replyK cmd fname t = true → isArrayT t = false →
      SelfOk (checkReplyFieldTypeCore fuel (some t) (some t) cmd fname u u))
    ∧ (∀ t u cmd fname, wfT .replyK cmd fname t = true → isArrayT t = false →
      isTypeInst t = true →
      SelfOk (checkReplyFieldTypeRecursive fuel t t cmd fname u u))
    ∧ (∀ narms oarms u cmd fname, (∀ a ∈ narms, a ∈ oarms) →
      nodupB (oarms.map TypeKind.tname) = true →
      wfTList .replyK cmd fname oarms = true →
      SelfOk (replyVariantArms fuel narms oarms cmd fname u u))
    ∧ (∀ f cmd, wfFieldW .replyK cmd f = true →
      SelfOk (checkReplyField fuel f f cmd))
    ∧ (∀ sd cmd, wfStructW .replyK cmd sd = true →
      SelfOk (checkReplyFields fuel sd sd cmd))
    ∧ (∀ olds sd cmd, (∀ f ∈ olds, f ∈ StructDef.fields sd) →
      nodupB ((StructDef.fields sd).map FieldDef.fname) = true →
      wfFieldList .replyK cmd olds = true →
      SelfOk (replyOldFieldsLoop fuel olds sd cmd))
    ∧ (∀ t u cmd pname isParam, wfT (.paramK isParam) cmd pname t = true →
      SelfOk (checkParamOrCommandType fuel
        ⟨⟨some t, u⟩, ⟨some t, u⟩, cmd, pname⟩ isParam))
    ∧ (∀ t u cmd pname isParam, wfT (.paramK isParam) cmd pname t = true →
      isArrayT t = false →
      SelfOk (checkParamOrCommandTypeCore fuel (some t) (some t) cmd pname u u
        isParam))
    ∧ (∀ t u cmd pname isParam, wfT (.paramK isParam) cmd pname t = true →
      isArrayT t = false → isTypeInst t = true →
      SelfOk (checkParamOrCommandTypeRecursive fuel t t cmd pname u u isParam))
    ∧ (∀ oarms narms u cmd pname isParam, (∀ a ∈ oarms, a ∈ narms) →
      nodupB (narms.map TypeKind.tname) = true →
      wfTList (.paramK isParam) cmd pname narms = true →
      SelfOk (paramVariantArms fuel oarms narms cmd pname u u isParam))
    ∧ (∀ f cmd isParam, wfFieldW (.paramK isParam) cmd f = true →
      SelfOk (checkCommandParamOrTypeStructField fuel f f cmd isParam))
    ∧ (∀ sd cmd isParam, wfStructW (.paramK isParam) cmd sd = true →
      SelfOk (checkCommandParamsOrTypeStructFields fuel sd sd cmd isParam))
    ∧ (∀ olds sd cmd isParam, (∀ f ∈ olds, f ∈ StructDef.fields sd) →
      nodupB ((StructDef.fields sd).map FieldDef.fname) = true →
      wfFieldList (.paramK isParam) cmd olds = true →
      SelfOk (paramOldFieldsLoop fuel olds sd cmd isParam))
    ∧ (∀ c, wfNs c = true → SelfOk (checkNamespace fuel c c)) := by
  intro fuel
  induction fuel with
  | zero =>
    refine ⟨?_, ?_, ?_, ?_, ?_, ?_, ?_, ?_, ?_, ?_, ?_, ?_, ?_, ?_, ?_⟩ <;>
      intros <;> exact selfOk_fuelOutR
  | succ fuel ih =>
    obtain ⟨ih1, ih2, ih3, ih4, ih5, ih6, ih7, ih8, ih9, ih10, ih11, ih12,
      ih13, ih14, ih15⟩ := ih
    refine ⟨?_, ?_, ?_, ?_, ?_, ?_, ?_, ?_, ?_, ?_, ?_, ?_, ?_, ?_, ?_⟩
    · -- checkReplyFieldType on a self pair
      intro t u cmd fname hwf
      cases t with
      | scalar a b c d e =>
        exact selfOk_withPre [] rfl (ih2 _ u cmd fname hwf rfl)
      | variantT a b c d e vts vst =>
        exact selfOk_withPre [] rfl (ih2 _ u cmd fname hwf rfl)
      | enumT a b =>
        exact selfOk_withPre [] rfl (ih2 _ u cmd fname hwf rfl)
      | structT sd =>
        exact selfOk_withPre [] rfl (ih2 _ u cmd fname hwf rfl)
      | arrayT n et =>
        rcases et with _ | e
        · exact Bool.noConfusion hwf
        · have hwf' : (!isArrayT e && wfT .replyK cmd fname e) = true := hwf
          rw [Bool.and_eq_true] at hwf'
          rcases hwf' with ⟨he1, he2⟩
          have he1' : isArrayT e = false := by simpa using he1
          exact selfOk_withPre [] rfl (ih2 e u cmd fname he2 he1')
    · -- checkReplyFieldTypeCore on a self pair
      intro t u cmd fname hwf harr
      cases t with
      | scalar a b c d e => exact ih3 _ u cmd fname hwf rfl rfl
      | variantT a b c d e vts vst => exact ih3 _ u cmd fname hwf rfl rfl
      | arrayT n et => exact Bool.noConfusion harr
      | enumT n vals =>
        refine selfOk_condB _ (fun _ => selfOk_okR) (fun _ => ?_)
        exact selfOk_ok_of_nil (by simp [subsetB_self])
      | structT sd => exact ih6 sd cmd hwf
    · -- checkReplyFieldTypeRecursive on a self pair
      intro t u cmd fname hwf harr hinst
      cases t with
      | arrayT n et => exact Bool.noConfusion harr
      | enumT n vals => exact Bool.noConfusion hinst
      | structT sd => exact Bool.noConfusion hinst
      | scalar nm bs c s d =>
        have hwf' : (!bs.contains "any" || allowAnyTypeList.contains
            (cmd ++ "-reply-" ++ fname)) = true := hwf
        have h1 : (bs.contains "any" && !bs.contains "any") = false := by
          cases hb : bs.contains "any" <;> simp
        have h2 : (!bs.contains "any" && bs.contains "any") = false := by
          cases hb : bs.contains "any" <;> simp
        have h3 : (bs.contains "any" && !allowAnyTypeList.contains
            (cmd ++ "-reply-" ++ fname)) = false := by
          cases hb : bs.contains "any"
          · simp
          · rw [hb] at hwf'
            simp only [Bool.not_true, Bool.false_or] at hwf'
            rw [hwf']
            decide
        refine selfOk_ite_neg _ h1 ?_
        refine selfOk_ite_neg _ h2 ?_
        refine selfOk_ite_neg _ h3 ?_
        refine selfOk_ok_of_nil ?_
        cases u <;> simp [bne_self_eq_false, subsetB_self]
      | variantT nm bs c s d vts vst =>
        have hwf' : ((((!bs.contains "any" || allowAnyTypeList.contains
              (cmd ++ "-reply-" ++ fname))
            && nodupB (vts.map TypeKind.tname))
            && wfTList .replyK cmd fname vts)
            && wfOStruct .replyK cmd vst) = true := hwf
        simp only [Bool.and_eq_true] at hwf'
        obtain ⟨⟨⟨hallow, hnodup⟩, harms⟩, hvst⟩ := hwf'
        have h1 : (bs.contains "any" && !bs.contains "any") = false := by
          cases hb : bs.contains "any" <;> simp
        have h2 : (!bs.contains "any" && bs.contains "any") = false := by
          cases hb : bs.contains "any" <;> simp
        have h3 : (bs.contains "any" && !allowAnyTypeList.contains
            (cmd ++ "-reply-" ++ fname)) = false := by
          cases hb : bs.contains "any"
          · simp
          · rw [hb] at hallow
            simp only [Bool.not_true, Bool.false_or] at hallow
            rw [hallow]
            decide
        rcases vst with _ | sd
        · refine selfOk_ite_neg _ h1 ?_
          refine selfOk_ite_neg _ h2 ?_
          refine selfOk_ite_neg _ h3 ?_
          refine selfOk_withPre _ ?_ ?_
          · cases u <;> simp [bne_self_eq_false]
          · exact selfOk_andThen
              (ih4 vts vts u cmd fname (fun a ha => ha) hnodup harms)
              selfOk_okR
        · refine selfOk_ite_neg _ h1 ?_
          refine selfOk_ite_neg _ h2 ?_
          refine selfOk_ite_neg _ h3 ?_
          refine selfOk_withPre _ ?_ ?_
          · cases u <;> simp [bne_self_eq_false]
          · exact selfOk_andThen
              (ih4 vts vts u cmd fname (fun a ha => ha) hnodup harms)
              (ih6 sd cmd hvst)
    · -- replyVariantArms on identical arm lists
      intro narms oarms u cmd fname hsub hnodup hwfl
      cases narms with
      | nil => exact selfOk_okR
      | cons nv rest =>
        have hnv : nv ∈ oarms := hsub nv (List.mem_cons_self _ _)
        have hfind := find_self_of_nodupB TypeKind.tname oarms nv hnv hnodup
        rw [replyVariantArms, hfind]
        exact selfOk_andThen (ih1 nv u cmd fname (wfTList_mem hwfl hnv))
          (ih4 rest oarms u cmd fname
            (fun a ha => hsub a (List.mem_cons_of_mem _ ha)) hnodup hwfl)
    · -- checkReplyField on a self pair
      intro f cmd hwf
      rcases f with ⟨fn, rt, o, uu, dd, v⟩
      rcases rt with _ | t
      · exact Bool.noConfusion hwf
      · refine selfOk_withPre _ ?_ (ih1 t uu cmd fn hwf)
        cases uu <;> rcases v with _ | vv <;> cases o <;>
          simp [bne_self_eq_false, FieldDef.unstableF, FieldDef.optionalF,
            FieldDef.validator, FieldDef.fname]
    · -- checkReplyFields on a self struct
      intro sd cmd hwf
      rcases sd with ⟨n, fs⟩
      have hwf' : (nodupB (fs.map FieldDef.fname)
          && wfFieldList .replyK cmd fs) = true := hwf
      rw [Bool.and_eq_true] at hwf'
      rcases hwf' with ⟨hnd, hfl⟩
      exact selfOk_andThen (ih7 fs ⟨n, fs⟩ cmd (fun f hf => hf) hnd hfl)
        (Or.inl (newlyAddedReplyChecks_self cmd fs fs (fun nf h => h)))
    · -- replyOldFieldsLoop over a self struct
      intro olds sd cmd hsub hnodup hwfl
      cases olds with
      | nil => exact selfOk_okR
      | cons ofd rest =>
        have hof : ofd ∈ StructDef.fields sd := hsub ofd (List.mem_cons_self _ _)
        have hfind := find_self_of_nodupB FieldDef.fname (StructDef.fields sd)
          ofd hof hnodup
        have hwfl' : (wfFieldW .replyK cmd ofd
            && wfFieldList .replyK cmd rest) = true := hwfl
        rw [Bool.and_eq_true] at hwfl'
        rcases hwfl' with ⟨hw1, hw2⟩
        rw [replyOldFieldsLoop, hfind]
        exact selfOk_andThen (ih5 ofd cmd hw1)
          (ih7 rest sd cmd (fun f hf => hsub f (List.mem_cons_of_mem _ hf))
            hnodup hw2)
    · -- checkParamOrCommandType on a self pair
      intro t u cmd pname isParam hwf
      cases t with
      | scalar a b c d e =>
        exact selfOk_withPre [] rfl (ih9 _ u cmd pname isParam hwf rfl)
      | variantT a b c d e vts vst =>
        exact selfOk_withPre [] rfl (ih9 _ u cmd pname isParam hwf rfl)
      | enumT a b =>
        exact selfOk_withPre [] rfl (ih9 _ u cmd pname isParam hwf rfl)
      | structT sd =>
        exact selfOk_withPre [] rfl (ih9 _ u cmd pname isParam hwf rfl)
      | arrayT n et =>
        rcases et with _ | e
        · exact Bool.noConfusion hwf
        · have hwf' : (!isArrayT e && wfT (.paramK isParam) cmd pname e)
              = true := hwf
          rw [Bool.and_eq_true] at hwf'
          rcases hwf' with ⟨he1, he2⟩
          have he1' : isArrayT e = false := by simpa using he1
          exact selfOk_withPre [] rfl (ih9 e u cmd pname isParam he2 he1')
    · -- checkParamOrCommandTypeCore on a self pair
      intro t u cmd pname isParam hwf harr
      cases t with
      | scalar a b c d e => exact ih10 _ u cmd pname isParam hwf rfl rfl
      | variantT a b c d e vts vst =>
        exact ih10 _ u cmd pname isParam hwf rfl rfl
      | arrayT n et => exact Bool.noConfusion harr
      | enumT n vals =>
        refine selfOk_condB _ (fun _ => selfOk_okR) (fun _ => ?_)
        exact selfOk_ok_of_nil (by simp [subsetB_self])
      | structT sd => exact ih13 sd cmd isParam hwf
    · -- checkParamOrCommandTypeRecursive on a self pair
      intro t u cmd pname isParam hwf harr hinst
      cases t with
      | arrayT n et => exact Bool.noConfusion harr
      | enumT n vals => exact Bool.noConfusion hinst
      | structT sd => exact Bool.noConfusion hinst
      | scalar nm bs c s d =>
        have hwf' : (!bs.contains "any" || allowAnyTypeList.contains
            (if isParam then cmd ++ "-param-" ++ pname else cmd)) = true := hwf
        have h1 : (bs.contains "any" && !bs.contains "any") = false := by
          cases hb : bs.contains "any" <;> simp
        have h2 : (!bs.contains "any" && bs.contains "any") = false := by
          cases hb : bs.contains "any" <;> simp
        have h3 : (bs.contains "any" && !allowAnyTypeList.contains
            (if isParam then cmd ++ "-param-" ++ pname else cmd)) = false := by
          cases hb : bs.contains "any"
          · simp
          · rw [hb] at hwf'
            simp only [Bool.not_true, Bool.false_or] at hwf'
            rw [hwf']
            decide
        refine selfOk_ite_neg _ h1 ?_
        refine selfOk_ite_neg _ h2 ?_
        refine selfOk_ite_neg _ h3 ?_
        refine selfOk_ok_of_nil ?_
        cases u <;> simp [bne_self_eq_false, subsetB_self]
      | variantT nm bs c s d vts vst =>
        have hwf' : ((((!bs.contains "any" || allowAnyTypeList.contains
              (if isParam then cmd ++ "-param-" ++ pname else cmd))
            && nodupB (vts.map TypeKind.tname))
            && wfTList (.paramK isParam) cmd pname vts)
            && wfOStruct (.paramK isParam) cmd vst) = true := hwf
        simp only [Bool.and_eq_true] at hwf'
        obtain ⟨⟨⟨hallow, hnodup⟩, harms⟩, hvst⟩ := hwf'
        have h1 : (bs.contains "any" && !bs.contains "any") = false := by
          cases hb : bs.contains "any" <;> simp
        have h2 : (!bs.contains "any" && bs.contains "any") = false := by
          cases hb : bs.contains "any" <;> simp
        have h3 : (bs.contains "any" && !allowAnyTypeList.contains
            (if isParam then cmd ++ "-param-" ++ pname else cmd)) = false := by
          cases hb : bs.contains "any"
          · simp
          · rw [hb] at hallow
            simp only [Bool.not_true, Bool.false_or] at hallow
            rw [hallow]
            decide
        rcases vst with _ | sd
        · refine selfOk_ite_neg _ h1 ?_
          refine selfOk_ite_neg _ h2 ?_
          refine selfOk_ite_neg _ h3 ?_
          refine selfOk_withPre _ ?_ ?_
          · cases u <;> simp [bne_self_eq_false]
          · exact selfOk_andThen
              (ih11 vts vts u cmd pname isParam (fun a ha => ha) hnodup harms)
              selfOk_okR
        · refine selfOk_ite_neg _ h1 ?_
          refine selfOk_ite_neg _ h2 ?_
          refine selfOk_ite_neg _ h3 ?_
          refine selfOk_withPre _ ?_ ?_
          · cases u <;> simp [bne_self_eq_false]
          · exact selfOk_andThen
              (ih11 vts vts u cmd pname isParam (fun a ha => ha) hnodup harms)
              (ih13 sd cmd isParam hvst)
    · -- paramVariantArms on identical arm lists
      intro oarms narms u cmd pname isParam hsub hnodup hwfl
      cases oarms with
      | nil => exact selfOk_okR
      | cons ov rest =>
        have hov : ov ∈ narms := hsub ov (List.mem_cons_self _ _)
        have hfind := find_self_of_nodupB' TypeKind.tname narms ov hov hnodup
        rw [paramVariantArms, hfind]
        exact selfOk_andThen (ih8 ov u cmd pname isParam (wfTList_mem hwfl hov))
          (ih11 rest narms u cmd pname isParam
            (fun a ha => hsub a (List.mem_cons_of_mem _ ha)) hnodup hwfl)
    · -- checkCommandParamOrTypeStructField on a self pair
      intro f cmd isParam hwf
      rcases f with ⟨fn, rt, o, uu, dd, v⟩
      rcases rt with _ | t
      · exact Bool.noConfusion hwf
      · refine selfOk_withPre _ ?_ (ih8 t uu cmd fn isParam hwf)
        cases uu <;> rcases v with _ | vv <;> cases o <;>
          simp [bne_self_eq_false, FieldDef.unstableF, FieldDef.optionalF,
            FieldDef.validator, FieldDef.fname, FieldDef.hasDefault]
    · -- checkCommandParamsOrTypeStructFields on a self struct
      intro sd cmd isParam hwf
      rcases sd with ⟨n, fs⟩
      have hwf' : (nodupB (fs.map FieldDef.fname)
          && wfFieldList (.paramK isParam) cmd fs) = true := hwf
      rw [Bool.and_eq_true] at hwf'
      rcases hwf' with ⟨hnd, hfl⟩
      exact selfOk_andThen
        (ih14 fs ⟨n, fs⟩ cmd isParam (fun f hf => hf) hnd hfl)
        (Or.inl (newlyAddedParamChecks_self cmd fs isParam fs (fun nf h => h)))
    · -- paramOldFieldsLoop over a self struct
      intro olds sd cmd isParam hsub hnodup hwfl
      cases olds with
      | nil => exact selfOk_okR
      | cons ofd rest =>
        have hof : ofd ∈ StructDef.fields sd := hsub ofd (List.mem_cons_self _ _)
        have hfind := find_self_of_nodupB FieldDef.fname (StructDef.fields sd)
          ofd hof hnodup
        have hwfl' : (wfFieldW (.paramK isParam) cmd ofd
            && wfFieldList (.paramK isParam) cmd rest) = true := hwfl
        rw [Bool.and_eq_true] at hwfl'
        rcases hwfl' with ⟨hw1, hw2⟩
        rw [paramOldFieldsLoop, hfind]
        exact selfOk_andThen (ih12 ofd cmd isParam hw1)
          (ih14 rest sd cmd isParam
            (fun f hf => hsub f (List.mem_cons_of_mem _ hf)) hnodup hw2)
    · -- checkNamespace on a self command
      intro c hns
      rcases c with ⟨nm, apiV, imp, st, nsk, nst, ps, rep, ac⟩
      cases nsk with
      | ignored => exact selfOk_okR
      | concatWithDb => exact selfOk_okR
      | concatWithDbOrUuid => exact selfOk_okR
      | typeNS =>
        rcases nst with _ | t
        · exact Bool.noConfusion hns
        · exact ih8 t false nm "" false hns


theorem selfOk_checkCommandPair :
    ∀ (fuel : Nat) (c : CommandDef), wfCmd c = true →
      SelfOk (checkCommandPair fuel c c)
  | 0, _, _ => selfOk_fuelOutR
  | fuel+1, c, h => by
    obtain ⟨-, -, -, -, -, ih6, -, -, -, -, -, -, ih13, -, ih15⟩ :=
      selfOk_all fuel
    have hns : wfNs c = true := by
      have h' : (((((c.apiVersion == "" || c.apiVersion == "1")
          && nodupB (c.parameters.map FieldDef.fname))
          && wfFieldList (.paramK true) c.name c.parameters)
          && wfStructW .replyK c.name c.replyType)
          && wfNs c) = true := h
      simp only [Bool.and_eq_true] at h'
      exact h'.2
    have hrest : (nodupB (c.parameters.map FieldDef.fname)
        && wfFieldList (.paramK true) c.name c.parameters) = true ∧
        wfStructW .replyK c.name c.replyType = true := by
      have h' : (((((c.apiVersion == "" || c.apiVersion == "1")
          && nodupB (c.parameters.map FieldDef.fname))
          && wfFieldList (.paramK true) c.name c.parameters)
          && wfStructW .replyK c.name c.replyType)
          && wfNs c) = true := h
      simp only [Bool.and_eq_true] at h'
      refine ⟨?_, h'.1.2⟩
      rw [Bool.and_eq_true]
      exact ⟨h'.1.1.1.2, h'.1.1.2⟩
    rcases c with ⟨nm, apiV, imp, st, nsk, nst, ps, rep, ac⟩
    refine selfOk_withPre _ ?_ ?_
    · cases st <;> simp
    · refine selfOk_andThen (ih13 ⟨nm, ps⟩ nm true hrest.1) ?_
      refine selfOk_andThen (ih15 _ hns) ?_
      refine selfOk_andThen (ih6 rep nm hrest.2) ?_
      exact Or.inl
        (congrArg CheckResult.ok (checkSecurityAccessChecks_self ac nm apiV))

theorem selfOk_checkGenerationPair :
    ∀ (fuel : Nat) (olds : List CommandDef) (seen : List String)
      (cmds : List CommandDef),
      (∀ c ∈ olds, c ∈ cmds) →
      nodupB (cmds.map CommandDef.name) = true →
      nodupB (olds.map CommandDef.name) = true →
      (∀ c ∈ olds, seen.contains c.name = false) →
      (∀ c ∈ cmds, wfCmd c = true) →
      SelfOk (checkGenerationPair fuel olds seen cmds)
  | 0, _, _, _, _, _, _, _, _ => selfOk_fuelOutR
  | _+1, [], _, _, _, _, _, _, _ => selfOk_okR
  | fuel+1, oc :: rest, seen, cmds, hsub, hndAll, hndOlds, hseen, hwfall => by
    have hwfoc : wfCmd oc = true := hwfall oc (hsub oc (List.mem_cons_self _ _))
    have hndOlds' : (!(rest.map CommandDef.name).contains oc.name
        && nodupB (rest.map CommandDef.name)) = true := hndOlds
    rw [Bool.and_eq_true, Bool.not_eq_true'] at hndOlds'
    rcases hndOlds' with ⟨hhd, hndRest⟩
    refine selfOk_condB _ (fun _ => ?_) (fun hskip => ?_)
    · exact selfOk_checkGenerationPair fuel rest seen cmds
        (fun c hc => hsub c (List.mem_cons_of_mem _ hc)) hndAll hndRest
        (fun c hc => hseen c (List.mem_cons_of_mem _ hc)) hwfall
    · refine selfOk_condB _ (fun hbad => ?_) (fun _ => ?_)
      · exfalso
        have hw' : (((((oc.apiVersion == "" || oc.apiVersion == "1")
            && nodupB (oc.parameters.map FieldDef.fname))
            && wfFieldList (.paramK true) oc.name oc.parameters)
            && wfStructW .replyK oc.name oc.replyType)
            && wfNs oc) = true := hwfoc
        simp only [Bool.and_eq_true] at hw'
        have hapi := hw'.1.1.1.1
        rw [Bool.or_eq_true] at hapi
        have hskip1 : (oc.apiVersion == "") = false := by
          rcases hq : (oc.apiVersion == "") with _ | _
          · rfl
          · rw [hq] at hskip
            simp only [Bool.true_or] at hskip
            exact Bool.noConfusion hskip
        rcases hapi with hapi | hapi
        · rw [hskip1] at hapi
          exact Bool.noConfusion hapi
        · have hbad' : (!(oc.apiVersion == "1")) = true := hbad
          rw [hapi] at hbad'
          exact Bool.noConfusion hbad'
      · refine selfOk_condB _ (fun hdup => ?_) (fun _ => ?_)
        · exfalso
          have hs := hseen oc (List.mem_cons_self _ _)
          rw [hs] at hdup
          exact Bool.noConfusion hdup
        · have hoc : oc ∈ cmds := hsub oc (List.mem_cons_self _ _)
          have hfind := find_self_of_nodupB CommandDef.name cmds oc hoc hndAll
          rw [hfind]
          refine selfOk_andThen (selfOk_checkCommandPair fuel oc hwfoc) ?_
          refine selfOk_checkGenerationPair fuel rest (oc.name :: seen) cmds
            (fun c hc => hsub c (List.mem_cons_of_mem _ hc)) hndAll hndRest
            (fun c hc => ?_) hwfall
          have h1 : seen.contains c.name = false :=
            hseen c (List.mem_cons_of_mem _ hc)
          have h2 : (c.name == oc.name) = false := by
            rcases hq : c.name == oc.name with _ | _
            · rfl
            · exfalso
              have hm : c.name ∈ rest.map CommandDef.name :=
                List.mem_map_of_mem _ hc
              rw [eq_of_beq hq] at hm
              have hcon : (rest.map CommandDef.name).contains oc.name
                  = true := by
                simpa using hm
              rw [hhd] at hcon
              exact Bool.noConfusion hcon
          rw [List.contains_cons, h2, h1]
          rfl

/-- A command whose parameter type carries `"any"` in its bson serialization
types but has no `ALLOW_ANY_TYPE_LIST` entry for its synthesized key. -/
def c9anyCmd : CommandDef :=
  ⟨"selfAnyCmd", "1", false, true, .ignored, none,
   [.mk "p" (some (.scalar "anyT" ["any"] none none none)) true false false
      none],
   .mk "selfAnyCmdReply" [], none⟩

/-- A small well-formed generation used as a concrete witness. -/
def c9okCmd : CommandDef :=
  ⟨"selfOkCmd", "1", false, true, .ignored, none,
   [.mk "p" (some (.scalar "string" ["string"] none none none)) false false
      false none],
   .mk "selfOkCmdReply" [], none⟩

/-- C9 counterexample: checking a generation against an identical copy of
itself is not error-free in general — a parameter whose type carries a
non-allowlisted `"any"` bson serialization type records an error against
itself, even though new and old are identical. -/
theorem c9_idempotence_counterexample :
    checkGenerationPair 8 [c9anyCmd] [] [c9anyCmd]
      = .ok [⟨.commandOrParamBsonAnyNotAllowed, "selfAnyCmd", some "p"⟩]
    ∧ ([⟨.commandOrParamBsonAnyNotAllowed, "selfAnyCmd", some "p"⟩]
        : List Err) ≠ [] :=
  ⟨by decide, by decide⟩

/-- C9 amended: comparing a well-formed generation (valid api versions,
unique command names, resolved types with no directly nested arrays, unique
variant-arm and field names, every `"any"` type allowlisted) against an
identical copy of itself records zero errors — the run either finishes
cleanly or exhausts its recursion bound with no errors recorded. -/
theorem c9_idempotence_amended (fuel : Nat) (cmds : List CommandDef)
    (h : wfGeneration cmds = true) :
    checkGenerationPair fuel cmds [] cmds = .ok [] ∨
    checkGenerationPair fuel cmds [] cmds = .fuelOut [] := by
  have h' : (nodupB (cmds.map CommandDef.name) && cmds.all wfCmd) = true := h
  rw [Bool.and_eq_true] at h'
  exact selfOk_checkGenerationPair fuel cmds [] cmds (fun c hc => hc) h'.1
    h'.1 (fun c hc => rfl) (fun c hc => List.all_eq_true.mp h'.2 c hc)

/-- Concrete witness for `c9_idempotence_amended`. -/
theorem c9_idempotence_amended_witness :
    wfGeneration [c9okCmd] = true ∧
    (checkGenerationPair 9 [c9okCmd] [] [c9okCmd] = .ok [] ∨
     checkGenerationPair 9 [c9okCmd] [] [c9okCmd] = .fuelOut []) :=
  ⟨by decide, c9_idempotence_amended 9 [c9okCmd] (by decide)⟩


end IdlCompat
